import Mathlib

/-!
Verification of the matrixmigrate migration-orchestration engine.

This file gives a shallow embedding, in Lean 4, of the parts of the Go
repository `aligundogdu/matrixmigrate` that the specification talks about:

* the migration step state machine (`internal/migration/state.go`),
* the mapping store (`internal/migration/mapping.go`),
* the import pipelines (`internal/matrix/import.go`),
* the HTTP client's response handling and 429 retry loop
  (`internal/matrix/client.go`),
* the export-side soft-delete filters
  (`internal/mattermost/config_reader.go`),
* the orchestrator's import-assets step (`internal/migration/orchestrator.go`).

Modelling conventions:

* Go `map[string]string` values are modelled as association lists
  (`GoDict`) with `dictGet` / `dictInsert`; Go map iteration is modelled
  as a fold over the entry list, and where a result depends on the
  iteration order only through last-write-wins the theorems carry a
  key-uniqueness hypothesis (Go maps always have unique keys).
* `int64` fields (timestamps, durations in nanoseconds) are modelled as
  `Int`.  No arithmetic in the modelled code paths comes near the
  `int64` range for the inputs the theorems quantify over, so two's
  complement wrap-around is not modelled.
* Side effects against the network are modelled by oracle functions
  (`Except String _` results), and each pipeline additionally returns
  the trace of outbound creation / invite calls it performed, so that
  "no API call is made" is a provable statement.
* File I/O is modelled by an explicit read-result value (`ReadResult`)
  and an abstract parse function.
-/

namespace MatrixMigrate

/-! ## Go maps as association lists -/

/-- A Go `map[string]string`, as an association list.  The Go map
invariant (each key occurs at most once) is stated as a `Nodup`
hypothesis where a theorem needs it. -/
abbrev GoDict := List (String × String)

/-- Lookup, `v, ok := m[k]`. -/
def dictGet (m : GoDict) (k : String) : Option String :=
  match m with
  | [] => none
  | (a, b) :: tl => if a = k then some b else dictGet tl k

/-- Assignment `m[k] = v`: replaces the binding if the key is present,
otherwise appends it. -/
def dictInsert (m : GoDict) (k v : String) : GoDict :=
  match m with
  | [] => [(k, v)]
  | (a, b) :: tl => if a = k then (k, v) :: tl else (a, b) :: dictInsert tl k v

/-- `for k, v := range d { m[k] = v }`. -/
def dictMergeInto (base : GoDict) (d : GoDict) : GoDict :=
  d.foldl (fun acc kv => dictInsert acc kv.1 kv.2) base

theorem dictGet_insert (m : GoDict) (k v k' : String) :
    dictGet (dictInsert m k v) k' = if k = k' then some v else dictGet m k' := by
  induction m with
  | nil => simp [dictInsert, dictGet]
  | cons hd tl ih =>
    obtain ⟨a, b⟩ := hd
    by_cases hak : a = k
    · subst hak
      by_cases hk' : a = k' <;> simp [dictInsert, dictGet, hk']
    · by_cases hak' : a = k'
      · subst hak'
        have hkk' : k ≠ a := fun h => hak h.symm
        simp [dictInsert, hak, dictGet, hkk']
      · simp [dictInsert, hak, dictGet, hak', ih]

theorem dictGet_isSome_insert (m : GoDict) (k v k' : String)
    (h : (dictGet m k').isSome) : (dictGet (dictInsert m k v) k').isSome := by
  rw [dictGet_insert]
  split <;> simp_all

theorem dictGet_none_of_not_mem_keys (m : GoDict) (k : String)
    (h : k ∉ m.map Prod.fst) : dictGet m k = none := by
  induction m with
  | nil => rfl
  | cons hd tl ih =>
    simp only [List.map_cons, List.mem_cons] at h
    push_neg at h
    simp [dictGet, Ne.symm h.1, ih h.2]

theorem dictGet_mergeInto (d : GoDict) (base : GoDict) (k : String)
    (hd : (d.map Prod.fst).Nodup) :
    dictGet (dictMergeInto base d) k =
      match dictGet d k with
      | some v => some v
      | none => dictGet base k := by
  induction d generalizing base with
  | nil => simp [dictMergeInto, dictGet]
  | cons hd' tl ih =>
    obtain ⟨a, b⟩ := hd'
    simp only [List.map_cons, List.nodup_cons] at hd
    have htl := ih (dictInsert base a b) hd.2
    simp only [dictMergeInto, List.foldl_cons] at htl ⊢
    rw [htl]
    by_cases hak : a = k
    · subst hak
      have : dictGet tl a = none := dictGet_none_of_not_mem_keys tl a hd.1
      simp [this, dictGet, dictGet_insert]
    · cases hgt : dictGet tl k with
      | some v => simp [dictGet, hak, hgt]
      | none => simp [dictGet, hak, hgt, dictGet_insert]

/-! ## Step status and migration state (`internal/migration/state.go`) -/

/-- `StepStatus` constants. -/
inductive StepStatus where
  | pending
  | in_progress
  | completed
  | failed
  | skipped
  deriving DecidableEq, Repr

/-- One entry of the state file's step map (`StepState`). -/
structure StepState where
  name : String
  status : StepStatus
  startedAt : Int := 0
  completedAt : Int := 0
  itemsProcessed : Int := 0
  itemsTotal : Int := 0
  errorMessage : String := ""
  outputFile : String := ""
  deriving DecidableEq, Repr

/-- The persisted migration state (`MigrationState`).  The Go
`map[StepName]*StepState` is an association list from step name to step
state. -/
structure MigrationState where
  version : String
  createdAt : Int
  updatedAt : Int
  steps : List (String × StepState)
  deriving DecidableEq, Repr

/-- `NewMigrationState`. -/
def newMigrationState (now : Int) : MigrationState :=
  { version := "1.0", createdAt := now, updatedAt := now, steps := [] }

/-- Lookup of a step entry in the steps map. -/
def stepsGet (steps : List (String × StepState)) (name : String) : Option StepState :=
  match steps with
  | [] => none
  | (a, b) :: tl => if a = name then some b else stepsGet tl name

/-- Store a step entry in the steps map (Go map assignment). -/
def stepsSet (steps : List (String × StepState)) (name : String) (st : StepState) :
    List (String × StepState) :=
  match steps with
  | [] => [(name, st)]
  | (a, b) :: tl => if a = name then (name, st) :: tl else (a, b) :: stepsSet tl name st

/-- `GetStep`: returns the existing entry or a fresh `pending` one.
(The Go method also inserts the fresh entry into the map; that insertion
is invisible to every status read, since the inserted entry is exactly
the default this function returns, so the read-only form suffices for
the functions modelled here.) -/
def getStep (s : MigrationState) (name : String) : StepState :=
  match stepsGet s.steps name with
  | some st => st
  | none => { name := name, status := .pending }

/-- Status of a step as `CanRunStep` observes it. -/
def getStepStatus (s : MigrationState) (name : String) : StepStatus :=
  (getStep s name).status

/-- `CanRunStep`: the declared dependency table. -/
def canRunStep (s : MigrationState) (name : String) : Bool × String :=
  if name = "export_assets" then
    (true, "")
  else if name = "import_assets" then
    if (getStep s "export_assets").status ≠ StepStatus.completed then
      (false, "export_assets must be completed first")
    else (true, "")
  else if name = "export_memberships" then
    if (getStep s "import_assets").status ≠ StepStatus.completed then
      (false, "import_assets must be completed first")
    else (true, "")
  else if name = "import_memberships" then
    if (getStep s "export_memberships").status ≠ StepStatus.completed then
      (false, "export_memberships must be completed first")
    else (true, "")
  else if name = "export_messages" then
    if (getStep s "export_assets").status ≠ StepStatus.completed then
      (false, "export_assets must be completed first")
    else (true, "")
  else if name = "import_messages" then
    if (getStep s "export_messages").status ≠ StepStatus.completed then
      (false, "export_messages must be completed first")
    else if (getStep s "import_assets").status ≠ StepStatus.completed then
      (false, "import_assets must be completed first (for room and user mappings)")
    else (true, "")
  else
    (false, "unknown step")

/-- `StartStep`. -/
def startStep (s : MigrationState) (name : String) (now : Int) : MigrationState :=
  let step := getStep s name
  { s with
    steps := stepsSet s.steps name
      { step with status := .in_progress, startedAt := now, errorMessage := "" }
    updatedAt := now }

/-- `CompleteStep`. -/
def completeStep (s : MigrationState) (name : String) (now : Int)
    (outputFile : String) : MigrationState :=
  let step := getStep s name
  { s with
    steps := stepsSet s.steps name
      { step with status := .completed, completedAt := now, outputFile := outputFile }
    updatedAt := now }

/-- `FailStep`. -/
def failStep (s : MigrationState) (name : String) (now : Int)
    (errMsg : String) : MigrationState :=
  let step := getStep s name
  { s with
    steps := stepsSet s.steps name
      { step with status := .failed, completedAt := now, errorMessage := errMsg }
    updatedAt := now }

/-- `GetStepOutputFile`. -/
def getStepOutputFile (s : MigrationState) (name : String) : String :=
  (getStep s name).outputFile

/-- The six declared step names. -/
def declaredSteps : List String :=
  ["export_assets", "import_assets", "export_memberships",
   "import_memberships", "export_messages", "import_messages"]

/-! ## Mapping store (`internal/migration/mapping.go`) -/

/-- The persisted ID mapping (`Mapping`). -/
structure Mapping where
  version : String
  createdAt : Int
  updatedAt : Int
  homeserver : String
  users : GoDict
  teams : GoDict
  channels : GoDict
  deriving DecidableEq, Repr

/-- `NewMapping`. -/
def newMapping (homeserver : String) (now : Int) : Mapping :=
  { version := "1.0", createdAt := now, updatedAt := now, homeserver := homeserver
    users := [], teams := [], channels := [] }

/-- `MergeUsers`: `for k, v := range users { m.Users[k] = v }` plus a
timestamp update. -/
def mergeUsers (m : Mapping) (users : GoDict) (now : Int) : Mapping :=
  { m with users := dictMergeInto m.users users, updatedAt := now }

/-- `MergeTeams`. -/
def mergeTeams (m : Mapping) (teams : GoDict) (now : Int) : Mapping :=
  { m with teams := dictMergeInto m.teams teams, updatedAt := now }

/-- `MergeChannels`. -/
def mergeChannels (m : Mapping) (channels : GoDict) (now : Int) : Mapping :=
  { m with channels := dictMergeInto m.channels channels, updatedAt := now }

/-! ## Load semantics for state and mapping files

`LoadState` / `LoadMapping` read a file and JSON-decode it.  The read is
modelled by a `ReadResult` (the three outcomes of `os.ReadFile` that the
code distinguishes) and the JSON decode by an abstract parse function. -/

/-- Outcome of `os.ReadFile` as the loaders distinguish it:
the file does not exist, it exists but reading fails, or read data. -/
inductive ReadResult where
  | notExist
  | readErr (msg : String)
  | data (contents : String)
  deriving DecidableEq, Repr

/-- `LoadState`: a nonexistent file yields a fresh state with a nil
error; a read failure or a parse failure is an error. -/
def loadState (parse : String → Option MigrationState) (now : Int)
    (r : ReadResult) : Except String MigrationState :=
  match r with
  | .notExist => .ok (newMigrationState now)
  | .readErr msg => .error ("failed to read state file: " ++ msg)
  | .data contents =>
    match parse contents with
    | some st => .ok st
    | none => .error "failed to parse state file"

/-- `LoadMapping`: any read failure — a nonexistent file included — is
an error, as is a parse failure. -/
def loadMapping (parse : String → Option Mapping) (r : ReadResult) :
    Except String Mapping :=
  match r with
  | .notExist => .error "failed to read mapping file: file does not exist"
  | .readErr msg => .error ("failed to read mapping file: " ++ msg)
  | .data contents =>
    match parse contents with
    | some m => .ok m
    | none => .error "failed to parse mapping file"

/-! ## Matrix client response handling and retry
(`internal/matrix/client.go`)

HTTP exchanges are modelled by their observable pieces: the status code,
the parsed body fields (`errcode` / `error`), and for the retry loop the
`Retry-After` header string (empty = absent, as `Header.Get` returns).
Durations are in nanoseconds (`time.Duration`), as `Int`. -/

/-- `l` starts with `pat`. -/
def listStartsWith : List Char → List Char → Bool
  | _, [] => true
  | [], _ :: _ => false
  | a :: as, b :: bs => a == b && listStartsWith as bs

/-- `pat` occurs as a contiguous sublist of `s`. -/
def listHasSub : List Char → List Char → Bool
  | [], pat => pat.isEmpty
  | s@(_ :: tl), pat => listStartsWith s pat || listHasSub tl pat

/-- Go `strings.Contains(s, sub)`. -/
def strContains (s sub : String) : Bool := listHasSub s.toList sub.toList

/-- The parsed error fields of a Matrix API response body
(`errcode` / `error`; both empty when the body carries neither). -/
structure ApiBody where
  errcode : String
  errmsg : String
  deriving DecidableEq, Repr

/-- The typed API error text `API error (%d): %s - %s`. -/
def apiErrorMsg (status : Nat) (b : ApiBody) : String :=
  "API error (" ++ toString status ++ "): " ++ b.errcode ++ " - " ++ b.errmsg

/-- `Client.CreateUser` response handling (after the HTTP exchange):
`body = none` models a JSON decode failure.  A non-200/201 status whose
body carries errcode `M_USER_IN_USE` or an error text containing
"already exists" is treated as success carrying the requested user ID;
any other non-200/201 status is a typed error; otherwise success. -/
def createUserResult (userID : String) (status : Nat) (body : Option ApiBody) :
    Except String String :=
  match body with
  | none => .error "failed to parse response"
  | some b =>
    if status ≠ 200 ∧ status ≠ 201 then
      if b.errcode = "M_USER_IN_USE" || strContains b.errmsg "already exists" then
        .ok userID
      else
        .error (apiErrorMsg status b)
    else .ok userID

/-- The parsed fields of a `createRoom` response body. -/
structure CreateRoomBody where
  roomId : String
  errcode : String
  errmsg : String
  deriving DecidableEq, Repr

/-- `Client.CreateRoom` response handling: any non-200 status is a typed
error — there is no already-exists branch here — and a 200 yields the
returned room ID. -/
def createRoomResult (status : Nat) (body : Option CreateRoomBody) :
    Except String String :=
  match body with
  | none => .error "failed to parse response"
  | some b =>
    if status ≠ 200 then
      .error (apiErrorMsg status { errcode := b.errcode, errmsg := b.errmsg })
    else .ok b.roomId

/-- `Client.InviteUser` response handling.  The body decode ignores
errors (`json.Unmarshal`'s result is discarded), so an unparsable body
is the zero value `⟨"", ""⟩`.  A 403 whose errcode is `M_FORBIDDEN` is
success; any other non-200 status is a typed error. -/
def inviteUserResult (status : Nat) (b : ApiBody) : Except String Unit :=
  if status = 403 ∧ b.errcode = "M_FORBIDDEN" then .ok ()
  else if status ≠ 200 then .error (apiErrorMsg status b)
  else .ok ()

/-- `strconv.Atoi`: optional sign, then one or more decimal digits.
(The `int64` range check on huge literals is not modelled.) -/
def digitsVal (l : List Char) : Option Nat :=
  if l.isEmpty then none
  else if l.all (fun c => c.isDigit) then
    some (l.foldl (fun acc c => acc * 10 + (c.toNat - 48)) 0)
  else none

/-- Go `strconv.Atoi`. -/
def goAtoi (s : String) : Option Int :=
  match s.toList with
  | '+' :: rest => (digitsVal rest).map (fun n => (n : Int))
  | '-' :: rest => (digitsVal rest).map (fun n => -(n : Int))
  | l => (digitsVal l).map (fun n => (n : Int))

/-- One nanosecond-denominated second (`time.Second`). -/
def nsPerSecond : Int := 1000000000

/-- `NewClientWithRateLimit`'s normalization of the configured
max-retries: non-positive values fall back to the default 5. -/
def effectiveMaxRetries (configured : Int) : Int :=
  if configured ≤ 0 then 5 else configured

/-- The delay computed before a 429 retry (`doRequestWithRetry` lines
183-201): start from the `Retry-After` header if it is nonempty and
parses as an integer (seconds), fall back to `base * 2^retryCount`
exactly when that start value is zero, then cap at 60 seconds. -/
def computeRetryDelay (retryBaseDelay : Int) (retryCount : Nat)
    (retryAfterHeader : String) : Int :=
  let fromHeader : Int :=
    if retryAfterHeader ≠ "" then
      match goAtoi retryAfterHeader with
      | some secs => secs * nsPerSecond
      | none => 0
    else 0
  let d := if fromHeader = 0 then retryBaseDelay * 2 ^ retryCount else fromHeader
  if d > 60 * nsPerSecond then 60 * nsPerSecond else d

/-- What the retry loop observes of the n-th HTTP attempt. -/
structure HttpAttempt where
  status : Nat
  retryAfter : String
  deriving DecidableEq, Repr

/-- Result of `doRequestWithRetry`: the final outcome, the number of
requests issued, and the sequence of sleeps performed. -/
structure RetryOutcome where
  result : Except String HttpAttempt
  requests : Nat
  sleeps : List Int
  deriving Repr

/-- The 429 retry loop.  `budget` is `maxRetries - retryCount`, so
`budget = 0` is exactly the Go guard `retryCount >= c.maxRetries` on
every trajectory that starts at retry count 0. -/
def doRequestWithRetryAux (responses : Nat → HttpAttempt) (maxRetries : Nat)
    (base : Int) (retryCount : Nat) : Nat → RetryOutcome
  | 0 =>
    let r := responses retryCount
    if r.status = 429 then
      { result := .error ("rate limit exceeded after " ++ toString maxRetries ++ " retries")
        requests := 1, sleeps := [] }
    else { result := .ok r, requests := 1, sleeps := [] }
  | budget + 1 =>
    let r := responses retryCount
    if r.status = 429 then
      let d := computeRetryDelay base retryCount r.retryAfter
      let rest := doRequestWithRetryAux responses maxRetries base (retryCount + 1) budget
      { result := rest.result, requests := rest.requests + 1, sleeps := d :: rest.sleeps }
    else { result := .ok r, requests := 1, sleeps := [] }

/-- `doRequest`: the retry loop entered at retry count 0. -/
def doRequestWithRetry (responses : Nat → HttpAttempt) (maxRetries : Nat)
    (base : Int) : RetryOutcome :=
  doRequestWithRetryAux responses maxRetries base 0 maxRetries

/-- The delay rule in the claim's words: the Retry-After header
(integer seconds) when present and > 0, else `base * 2^retryCount`, and
in either case capped at 60 seconds. -/
def claimRetryDelay (retryBaseDelay : Int) (retryCount : Nat)
    (retryAfterHeader : String) : Int :=
  let d := match goAtoi retryAfterHeader with
    | some secs => if 0 < secs then secs * nsPerSecond
        else retryBaseDelay * 2 ^ retryCount
    | none => retryBaseDelay * 2 ^ retryCount
  if d > 60 * nsPerSecond then 60 * nsPerSecond else d

/-! ## Mattermost records and the export filters
(`internal/mattermost/models.go`, `internal/mattermost/config_reader.go`)

Only the fields the modelled functions read are carried; the remaining
descriptive fields (email, locale, roles, counters, …) are inert. -/

namespace Mattermost

/-- A Mattermost user row. -/
structure User where
  id : String
  username : String
  firstName : String
  lastName : String
  deleteAt : Int
  deriving DecidableEq, Repr

/-- `User.IsDeleted`: `DeleteAt > 0`. -/
def User.isDeleted (u : User) : Bool := decide (0 < u.deleteAt)

/-- A Mattermost team row. -/
structure Team where
  id : String
  displayName : String
  description : String
  type : String
  deleteAt : Int
  deriving DecidableEq, Repr

/-- `Team.IsDeleted`. -/
def Team.isDeleted (t : Team) : Bool := decide (0 < t.deleteAt)

/-- `Team.IsOpen`: type "O". -/
def Team.isOpen (t : Team) : Bool := t.type = "O"

/-- A Mattermost channel row. -/
structure Channel where
  id : String
  teamId : String
  displayName : String
  header : String
  purpose : String
  type : String
  deleteAt : Int
  deriving DecidableEq, Repr

/-- `Channel.IsDeleted`. -/
def Channel.isDeleted (c : Channel) : Bool := decide (0 < c.deleteAt)

/-- `Channel.IsPublic`: type "O". -/
def Channel.isPublic (c : Channel) : Bool := c.type = "O"

/-- `Channel.IsDirect`: type "D". -/
def Channel.isDirect (c : Channel) : Bool := c.type = "D"

/-- `Channel.IsGroup`: type "G". -/
def Channel.isGroup (c : Channel) : Bool := c.type = "G"

/-- A team membership row. -/
structure TeamMember where
  teamId : String
  userId : String
  deleteAt : Int
  deriving DecidableEq, Repr

/-- `TeamMember.IsDeleted`. -/
def TeamMember.isDeleted (tm : TeamMember) : Bool := decide (0 < tm.deleteAt)

/-- A channel membership row.  The source struct carries no `DeleteAt`
field (channel memberships have no tombstone). -/
structure ChannelMember where
  channelId : String
  userId : String
  deriving DecidableEq, Repr

/-- The assets export artifact contents. -/
structure Assets where
  exportedAt : Int
  version : String
  users : List User
  teams : List Team
  channels : List Channel
  deriving DecidableEq, Repr

/-- The memberships export artifact contents. -/
structure Memberships where
  exportedAt : Int
  version : String
  teamMembers : List TeamMember
  channelMembers : List ChannelMember
  deriving DecidableEq, Repr

/-- `FilterActiveAssets`: drops the rows whose `IsDeleted` holds,
keeping input order (the Go append loops are filters). -/
def filterActiveAssets (a : Assets) : Assets :=
  { exportedAt := a.exportedAt, version := a.version
    users := a.users.filter (fun u => !u.isDeleted)
    teams := a.teams.filter (fun t => !t.isDeleted)
    channels := a.channels.filter (fun c => !c.isDeleted) }

/-- `FilterActiveMemberships`: filters team members by `IsDeleted`;
channel members have no `DeleteAt`, so all of them are copied. -/
def filterActiveMemberships (ms : Memberships) : Memberships :=
  { exportedAt := ms.exportedAt, version := ms.version
    teamMembers := ms.teamMembers.filter (fun tm => !tm.isDeleted)
    channelMembers := ms.channelMembers }

end Mattermost

/-! ## Import pipelines (`internal/matrix/import.go`)

Each destination call is abstracted by an oracle returning the call's
`Except` outcome, and the pipeline state carries the trace of creation /
invite calls actually issued (each entry names the source record, resp.
the invite's arguments), so that "no destination call is made for this
record" is a provable statement. -/

/-- `ImportStats`. -/
structure ImportStats where
  usersCreated : Nat := 0
  usersSkipped : Nat := 0
  usersFailed : Nat := 0
  spacesCreated : Nat := 0
  spacesSkipped : Nat := 0
  spacesFailed : Nat := 0
  roomsCreated : Nat := 0
  roomsSkipped : Nat := 0
  roomsFailed : Nat := 0
  membersAdded : Nat := 0
  membersSkipped : Nat := 0
  membersFailed : Nat := 0
  roomsLinked : Nat := 0
  roomsLinkFailed : Nat := 0
  deriving DecidableEq, Repr

/-- `Client.FormatUserID`: `@username:homeserver`. -/
def formatUserID (homeserver username : String) : String :=
  "@" ++ username ++ ":" ++ homeserver

/-- Destination oracle for the user pipeline: the outcomes of
`Client.UserExists` and `Client.CreateUser` per username (the latter
already carries the client-side already-exists-as-success handling of
`createUserResult`). -/
structure UserOracle where
  userExists : String → Except String Bool
  createUser : String → Except String String

/-- Accumulator of one creation pipeline pass: the output mapping, the
statistics, and the creation calls issued so far. -/
structure PipeState where
  mapping : GoDict
  stats : ImportStats
  createCalls : List String
  deriving DecidableEq, Repr

/-- The body of the `ImportUsers` loop for one user record. -/
def importUserStep (homeserver : String) (oracle : UserOracle) (existingMapping : GoDict)
    (st : PipeState) (u : Mattermost.User) : PipeState :=
  if u.isDeleted then
    { st with stats := { st.stats with usersSkipped := st.stats.usersSkipped + 1 } }
  else if (dictGet existingMapping u.id).isSome then
    { st with stats := { st.stats with usersSkipped := st.stats.usersSkipped + 1 } }
  else
    let userFound := match oracle.userExists u.username with
      | .ok b => b
      | .error _ => false
    if userFound then
      { st with
        mapping := dictInsert st.mapping u.id (formatUserID homeserver u.username)
        stats := { st.stats with usersSkipped := st.stats.usersSkipped + 1 } }
    else
      match oracle.createUser u.username with
      | .error e =>
        if strContains e "already exists" || strContains e "M_USER_IN_USE" then
          { st with
            mapping := dictInsert st.mapping u.id (formatUserID homeserver u.username)
            stats := { st.stats with usersSkipped := st.stats.usersSkipped + 1 }
            createCalls := st.createCalls ++ [u.username] }
        else
          { st with
            stats := { st.stats with usersFailed := st.stats.usersFailed + 1 }
            createCalls := st.createCalls ++ [u.username] }
      | .ok userID =>
        { st with
          mapping := dictInsert st.mapping u.id userID
          stats := { st.stats with usersCreated := st.stats.usersCreated + 1 }
          createCalls := st.createCalls ++ [u.username] }

/-- `Importer.ImportUsers`: the output mapping starts as a copy of the
existing one, statistics start at zero, and the Go function's error
result is always nil. -/
def importUsers (homeserver : String) (oracle : UserOracle)
    (users : List Mattermost.User) (existingMapping : GoDict) : PipeState :=
  users.foldl (importUserStep homeserver oracle existingMapping)
    { mapping := existingMapping, stats := {}, createCalls := [] }

/-- Destination oracle for the space pipeline: `Client.CreateSpace`
(name, topic, public) returning the created room ID. -/
structure SpaceOracle where
  createSpace : String → String → Bool → Except String String

/-- The body of the `ImportTeamsAsSpaces` loop for one team record.
The trace records the source team's ID. -/
def importTeamStep (oracle : SpaceOracle) (existingMapping : GoDict)
    (st : PipeState) (t : Mattermost.Team) : PipeState :=
  if t.isDeleted then
    { st with stats := { st.stats with spacesSkipped := st.stats.spacesSkipped + 1 } }
  else if (dictGet existingMapping t.id).isSome then
    { st with stats := { st.stats with spacesSkipped := st.stats.spacesSkipped + 1 } }
  else
    match oracle.createSpace t.displayName t.description t.isOpen with
    | .error _ =>
      { st with
        stats := { st.stats with spacesFailed := st.stats.spacesFailed + 1 }
        createCalls := st.createCalls ++ [t.id] }
    | .ok roomID =>
      { st with
        mapping := dictInsert st.mapping t.id roomID
        stats := { st.stats with spacesCreated := st.stats.spacesCreated + 1 }
        createCalls := st.createCalls ++ [t.id] }

/-- `Importer.ImportTeamsAsSpaces`. -/
def importTeamsAsSpaces (oracle : SpaceOracle) (teams : List Mattermost.Team)
    (existingMapping : GoDict) : PipeState :=
  teams.foldl (importTeamStep oracle existingMapping)
    { mapping := existingMapping, stats := {}, createCalls := [] }

/-- Destination oracle for the room pipeline: `Client.CreateRegularRoom`
(name, topic, public) returning the created room ID. -/
structure RoomOracle where
  createRoom : String → String → Bool → Except String String

/-- The body of the `ImportChannelsAsRooms` loop for one channel record.
The trace records the source channel's ID. -/
def importChannelStep (oracle : RoomOracle) (existingMapping : GoDict)
    (st : PipeState) (c : Mattermost.Channel) : PipeState :=
  if c.isDeleted then
    { st with stats := { st.stats with roomsSkipped := st.stats.roomsSkipped + 1 } }
  else if c.isDirect || c.isGroup then
    { st with stats := { st.stats with roomsSkipped := st.stats.roomsSkipped + 1 } }
  else if (dictGet existingMapping c.id).isSome then
    { st with stats := { st.stats with roomsSkipped := st.stats.roomsSkipped + 1 } }
  else
    let topic := if c.purpose = "" then c.header else c.purpose
    match oracle.createRoom c.displayName topic c.isPublic with
    | .error _ =>
      { st with
        stats := { st.stats with roomsFailed := st.stats.roomsFailed + 1 }
        createCalls := st.createCalls ++ [c.id] }
    | .ok roomID =>
      { st with
        mapping := dictInsert st.mapping c.id roomID
        stats := { st.stats with roomsCreated := st.stats.roomsCreated + 1 }
        createCalls := st.createCalls ++ [c.id] }

/-- `Importer.ImportChannelsAsRooms`. -/
def importChannelsAsRooms (oracle : RoomOracle) (channels : List Mattermost.Channel)
    (existingMapping : GoDict) : PipeState :=
  channels.foldl (importChannelStep oracle existingMapping)
    { mapping := existingMapping, stats := {}, createCalls := [] }

/-- Destination oracle for the membership pipelines: `Client.InviteUser`
per (room/space ID, user ID). -/
structure InviteOracle where
  inviteUser : String → String → Except String Unit

/-- Accumulator of a membership pass: statistics and the invite calls
issued so far (room/space ID, user ID). -/
structure MembState where
  stats : ImportStats
  inviteCalls : List (String × String)
  deriving DecidableEq, Repr

/-- The body of the `ApplyTeamMemberships` loop for one membership. -/
def teamMembershipStep (oracle : InviteOracle) (userMapping spaceMapping : GoDict)
    (st : MembState) (m : Mattermost.TeamMember) : MembState :=
  if m.isDeleted then
    { st with stats := { st.stats with membersSkipped := st.stats.membersSkipped + 1 } }
  else
    match dictGet userMapping m.userId, dictGet spaceMapping m.teamId with
    | some userID, some spaceID =>
      match oracle.inviteUser spaceID userID with
      | .error _ =>
        { st with
          stats := { st.stats with membersFailed := st.stats.membersFailed + 1 }
          inviteCalls := st.inviteCalls ++ [(spaceID, userID)] }
      | .ok _ =>
        { st with
          stats := { st.stats with membersAdded := st.stats.membersAdded + 1 }
          inviteCalls := st.inviteCalls ++ [(spaceID, userID)] }
    | _, _ =>
      { st with stats := { st.stats with membersSkipped := st.stats.membersSkipped + 1 } }

/-- `Importer.ApplyTeamMemberships`. -/
def applyTeamMemberships (oracle : InviteOracle) (memberships : List Mattermost.TeamMember)
    (userMapping spaceMapping : GoDict) : MembState :=
  memberships.foldl (teamMembershipStep oracle userMapping spaceMapping)
    { stats := {}, inviteCalls := [] }

/-- The body of the `ApplyChannelMemberships` loop for one membership
(channel memberships have no tombstone, so there is no deleted check). -/
def channelMembershipStep (oracle : InviteOracle) (userMapping roomMapping : GoDict)
    (st : MembState) (m : Mattermost.ChannelMember) : MembState :=
  match dictGet userMapping m.userId, dictGet roomMapping m.channelId with
  | some userID, some roomID =>
    match oracle.inviteUser roomID userID with
    | .error _ =>
      { st with
        stats := { st.stats with membersFailed := st.stats.membersFailed + 1 }
        inviteCalls := st.inviteCalls ++ [(roomID, userID)] }
    | .ok _ =>
      { st with
        stats := { st.stats with membersAdded := st.stats.membersAdded + 1 }
        inviteCalls := st.inviteCalls ++ [(roomID, userID)] }
  | _, _ =>
    { st with stats := { st.stats with membersSkipped := st.stats.membersSkipped + 1 } }

/-- `Importer.ApplyChannelMemberships`. -/
def applyChannelMemberships (oracle : InviteOracle)
    (memberships : List Mattermost.ChannelMember)
    (userMapping roomMapping : GoDict) : MembState :=
  memberships.foldl (channelMembershipStep oracle userMapping roomMapping)
    { stats := {}, inviteCalls := [] }

/-- Oracle for `LinkRoomsToSpaces`: `AddRoomToSpace` and
`SetRoomParent`. -/
structure LinkOracle where
  addRoomToSpace : String → String → Bool → Except String Unit
  setRoomParent : String → String → Bool → Except String Unit

/-- The body of the `LinkRoomsToSpaces` loop: a failing `SetRoomParent`
is non-fatal. -/
def linkChannelStep (oracle : LinkOracle) (spaceMapping roomMapping : GoDict)
    (st : ImportStats) (c : Mattermost.Channel) : ImportStats :=
  if c.teamId = "" then st
  else
    match dictGet spaceMapping c.teamId, dictGet roomMapping c.id with
    | some spaceID, some roomID =>
      match oracle.addRoomToSpace spaceID roomID true with
      | .error _ => { st with roomsLinkFailed := st.roomsLinkFailed + 1 }
      | .ok _ => { st with roomsLinked := st.roomsLinked + 1 }
    | _, _ => st

/-- `Importer.LinkRoomsToSpaces`. -/
def linkRoomsToSpaces (oracle : LinkOracle) (channels : List Mattermost.Channel)
    (spaceMapping roomMapping : GoDict) : ImportStats :=
  channels.foldl (linkChannelStep oracle spaceMapping roomMapping) {}

/-- `ExistingMappings`. -/
structure ExistingMappings where
  users : GoDict
  spaces : GoDict
  rooms : GoDict
  deriving DecidableEq, Repr

/-- The destination oracles of one asset import. -/
structure AssetOracles where
  user : UserOracle
  space : SpaceOracle
  room : RoomOracle

/-- `ImportAssetsResult`. -/
structure ImportAssetsResult where
  userMapping : GoDict
  spaceMapping : GoDict
  roomMapping : GoDict
  stats : ImportStats
  deriving DecidableEq, Repr

/-- `Importer.ImportAssets`: users, then teams as spaces, then channels
as rooms; absent existing mappings start empty.  The three sub-pipelines
return nil errors unconditionally, so the composed result is always
`ok` — exactly as in the source, whose error returns are dead
branches. -/
def importAssets (homeserver : String) (oracles : AssetOracles)
    (assets : Mattermost.Assets) (existing : Option ExistingMappings) :
    Except String ImportAssetsResult :=
  let ex : ExistingMappings := match existing with
    | none => { users := [], spaces := [], rooms := [] }
    | some e => e
  let us := importUsers homeserver oracles.user assets.users ex.users
  let sp := importTeamsAsSpaces oracles.space assets.teams ex.spaces
  let rm := importChannelsAsRooms oracles.room assets.channels ex.rooms
  .ok
    { userMapping := us.mapping, spaceMapping := sp.mapping, roomMapping := rm.mapping
      stats :=
      { usersCreated := us.stats.usersCreated
        usersSkipped := us.stats.usersSkipped
        usersFailed := us.stats.usersFailed
        spacesCreated := sp.stats.spacesCreated
        spacesSkipped := sp.stats.spacesSkipped
        spacesFailed := sp.stats.spacesFailed
        roomsCreated := rm.stats.roomsCreated
        roomsSkipped := rm.stats.roomsSkipped
        roomsFailed := rm.stats.roomsFailed } }

/-! ## The orchestrator's import-assets step
(`internal/migration/orchestrator.go`, `Orchestrator.ImportAssets`) -/

/-- `OperationResult`, restricted to the fields the import-assets step
writes. -/
structure OperationResult where
  usersCreated : Nat := 0
  usersSkipped : Nat := 0
  usersFailed : Nat := 0
  spacesCreated : Nat := 0
  spacesSkipped : Nat := 0
  spacesFailed : Nat := 0
  roomsCreated : Nat := 0
  roomsSkipped : Nat := 0
  roomsFailed : Nat := 0
  roomsLinked : Nat := 0
  outputFile : String := ""
  deriving DecidableEq, Repr

/-- The environment of one `Orchestrator.ImportAssets` invocation: the
clock, the connection flag, the outcomes of the file operations (asset
load, state save, mapping save), the result of the existing-mapping
discovery block, the generated mapping filename, the configured
homeserver, and the destination oracles. -/
structure OrchestratorEnv where
  now : Int
  connected : Bool
  loadAssets : Except String Mattermost.Assets
  existingMappings : Option ExistingMappings
  saveState : Except String Unit
  saveMapping : Except String Unit
  mappingFile : String
  homeserver : String
  oracles : AssetOracles
  link : LinkOracle

/-- `Orchestrator.ImportAssets`: prerequisite gate, start-and-persist,
asset load, import, mapping save, linking, complete-and-persist.
Returns the state as left behind plus the call's result. -/
def orchestratorImportAssets (env : OrchestratorEnv) (s : MigrationState) :
    MigrationState × Except String OperationResult :=
  if env.connected = false then
    (s, .error "not connected to Matrix")
  else
    let gate := canRunStep s "import_assets"
    if gate.1 = false then
      (s, .error ("cannot run step: " ++ gate.2))
    else
      let assetFile := getStepOutputFile s "export_assets"
      if assetFile = "" then
        (s, .error "no asset file found from export step")
      else
        let s1 := startStep s "import_assets" env.now
        match env.saveState with
        | .error e => (s1, .error e)
        | .ok _ =>
          match env.loadAssets with
          | .error e =>
            (failStep s1 "import_assets" env.now e, .error ("failed to load assets: " ++ e))
          | .ok assets =>
            match importAssets env.homeserver env.oracles assets env.existingMappings with
            | .error e =>
              (failStep s1 "import_assets" env.now e, .error ("import failed: " ++ e))
            | .ok importResult =>
              let result : OperationResult :=
                { usersCreated := importResult.stats.usersCreated
                  usersSkipped := importResult.stats.usersSkipped
                  usersFailed := importResult.stats.usersFailed
                  spacesCreated := importResult.stats.spacesCreated
                  spacesSkipped := importResult.stats.spacesSkipped
                  spacesFailed := importResult.stats.spacesFailed
                  roomsCreated := importResult.stats.roomsCreated
                  roomsSkipped := importResult.stats.roomsSkipped
                  roomsFailed := importResult.stats.roomsFailed }
              match env.saveMapping with
              | .error e =>
                (failStep s1 "import_assets" env.now e,
                  .error ("failed to save mapping: " ++ e))
              | .ok _ =>
                let linkStats := linkRoomsToSpaces env.link assets.channels
                  importResult.spaceMapping importResult.roomMapping
                let result := { result with roomsLinked := linkStats.roomsLinked }
                let s2 := completeStep s1 "import_assets" env.now env.mappingFile
                match env.saveState with
                | .error e => (s2, .error e)
                | .ok _ => (s2, .ok { result with outputFile := env.mappingFile })

end MatrixMigrate

namespace MatrixMigrate

/-- A sample state used by witnesses: export_assets completed, the rest
untouched (hence pending). -/
def sampleState : MigrationState :=
  { version := "1.0", createdAt := 0, updatedAt := 0
    steps := [("export_assets", { name := "export_assets", status := .completed })] }

/-- C1: `CanRunStep` implements exactly the declared dependency table,
returns `(false, "unknown step")` on the six-name complement, and when a
prerequisite is not `completed` (in particular `pending`, `in_progress`
or `failed`) it returns `false` with the reason naming that
prerequisite. -/
theorem canRunStep_dependency_table (s : MigrationState) :
    (canRunStep s "export_assets" = (true, "")) ∧
    (canRunStep s "import_assets" =
      if getStepStatus s "export_assets" = .completed then (true, "")
      else (false, "export_assets must be completed first")) ∧
    (canRunStep s "export_memberships" =
      if getStepStatus s "import_assets" = .completed then (true, "")
      else (false, "import_assets must be completed first")) ∧
    (canRunStep s "import_memberships" =
      if getStepStatus s "export_memberships" = .completed then (true, "")
      else (false, "export_memberships must be completed first")) ∧
    (canRunStep s "export_messages" =
      if getStepStatus s "export_assets" = .completed then (true, "")
      else (false, "export_assets must be completed first")) ∧
    (canRunStep s "import_messages" =
      if getStepStatus s "export_messages" ≠ .completed then
        (false, "export_messages must be completed first")
      else if getStepStatus s "import_assets" ≠ .completed then
        (false, "import_assets must be completed first (for room and user mappings)")
      else (true, "")) ∧
    (∀ name : String, name ∉ declaredSteps →
      canRunStep s name = (false, "unknown step")) := by
  refine ⟨rfl, ?_, ?_, ?_, ?_, ?_, ?_⟩
  · by_cases h : getStepStatus s "export_assets" = .completed <;>
      simp [canRunStep, getStepStatus, h]
  · by_cases h : getStepStatus s "import_assets" = .completed <;>
      simp [canRunStep, getStepStatus, h]
  · by_cases h : getStepStatus s "export_memberships" = .completed <;>
      simp [canRunStep, getStepStatus, h]
  · by_cases h : getStepStatus s "export_assets" = .completed <;>
      simp [canRunStep, getStepStatus, h]
  · by_cases h1 : getStepStatus s "export_messages" = .completed <;>
      by_cases h2 : getStepStatus s "import_assets" = .completed <;>
      simp [canRunStep, getStepStatus, h1, h2]
  · intro name hname
    simp only [declaredSteps, List.mem_cons, List.not_mem_nil, or_false] at hname
    push_neg at hname
    obtain ⟨h1, h2, h3, h4, h5, h6⟩ := hname
    simp [canRunStep, h1, h2, h3, h4, h5, h6]

/-- Witness for C1: on the sample state, import-assets is allowed (its
prerequisite is completed), import-memberships is refused naming its
prerequisite, and an unknown name is refused with "unknown step". -/
theorem canRunStep_dependency_table_witness :
    canRunStep sampleState "bogus_step" = (false, "unknown step") ∧
    canRunStep sampleState "import_assets" = (true, "") ∧
    canRunStep sampleState "import_memberships" =
      (false, "export_memberships must be completed first") := by
  refine ⟨(canRunStep_dependency_table sampleState).2.2.2.2.2.2 "bogus_step" (by decide), ?_, ?_⟩
  · have h := (canRunStep_dependency_table sampleState).2.1
    rw [h]; rfl
  · have h := (canRunStep_dependency_table sampleState).2.2.2.1
    rw [h]; rfl

/-- A sample mapping used by witnesses. -/
def sampleMapping : Mapping :=
  { version := "1.0", createdAt := 0, updatedAt := 0, homeserver := "matrix.example"
    users := [("a", "@a:matrix.example"), ("b", "@b:matrix.example")]
    teams := [("t1", "!s1:matrix.example")]
    channels := [("c1", "!r1:matrix.example")] }

/-- C9: each merge is a union into its own dictionary in which the
argument's value wins on keys present in both (last-write-wins), keys of
the old dictionary outside the argument keep their value, and the other
two dictionaries are untouched. -/
theorem merge_lastWriteWins (m : Mapping) (d : GoDict) (now : Int)
    (hd : (d.map Prod.fst).Nodup) :
    (∀ k, dictGet (mergeUsers m d now).users k =
      match dictGet d k with
      | some v => some v
      | none => dictGet m.users k) ∧
    ((mergeUsers m d now).teams = m.teams ∧ (mergeUsers m d now).channels = m.channels) ∧
    (∀ k, dictGet (mergeTeams m d now).teams k =
      match dictGet d k with
      | some v => some v
      | none => dictGet m.teams k) ∧
    ((mergeTeams m d now).users = m.users ∧ (mergeTeams m d now).channels = m.channels) ∧
    (∀ k, dictGet (mergeChannels m d now).channels k =
      match dictGet d k with
      | some v => some v
      | none => dictGet m.channels k) ∧
    ((mergeChannels m d now).users = m.users ∧ (mergeChannels m d now).teams = m.teams) := by
  refine ⟨fun k => ?_, ⟨rfl, rfl⟩, fun k => ?_, ⟨rfl, rfl⟩, fun k => ?_, ⟨rfl, rfl⟩⟩ <;>
    exact dictGet_mergeInto d _ k hd

/-- Witness for C9 on concrete dictionaries: the merged value for a key
present in both is the argument's, an untouched key keeps its value, and
the team dictionary is unchanged by a user merge. -/
theorem merge_lastWriteWins_witness :
    dictGet (mergeUsers sampleMapping [("b", "NEW"), ("c", "@c:matrix.example")] 7).users "b"
      = some "NEW" ∧
    dictGet (mergeUsers sampleMapping [("b", "NEW"), ("c", "@c:matrix.example")] 7).users "a"
      = some "@a:matrix.example" ∧
    (mergeUsers sampleMapping [("b", "NEW"), ("c", "@c:matrix.example")] 7).teams
      = sampleMapping.teams := by
  have h := merge_lastWriteWins sampleMapping [("b", "NEW"), ("c", "@c:matrix.example")] 7
    (by decide)
  refine ⟨?_, ?_, h.2.1.1⟩
  · rw [h.1 "b"]; decide
  · rw [h.1 "a"]; decide

/-- C10: loading the migration state from a nonexistent path is not an
error — it yields a fresh state (version "1.0", empty step map, every
step observed as pending); only read and parse failures of an existing
file are errors.  `LoadMapping`, by contrast, is an error on a
nonexistent path. -/
theorem loadState_notExist_fresh (parseS : String → Option MigrationState)
    (parseM : String → Option Mapping) (now : Int) :
    (loadState parseS now .notExist = .ok (newMigrationState now)) ∧
    ((newMigrationState now).version = "1.0") ∧
    ((newMigrationState now).steps = []) ∧
    (∀ name, getStepStatus (newMigrationState now) name = .pending) ∧
    (∀ msg, loadState parseS now (.readErr msg) =
      .error ("failed to read state file: " ++ msg)) ∧
    (∀ c, parseS c = none →
      loadState parseS now (.data c) = .error "failed to parse state file") ∧
    (∀ c st, parseS c = some st → loadState parseS now (.data c) = .ok st) ∧
    (∃ e, loadMapping parseM .notExist = .error e) := by
  refine ⟨rfl, rfl, rfl, fun name => rfl, fun msg => rfl, fun c hc => ?_, fun c st hc => ?_,
    ⟨_, rfl⟩⟩
  · simp [loadState, hc]
  · simp [loadState, hc]

/-- Witness for C10 with a concrete (always-failing) parser and time 0. -/
theorem loadState_notExist_fresh_witness :
    loadState (fun _ => none) 0 ReadResult.notExist = .ok (newMigrationState 0) ∧
    getStepStatus (newMigrationState 0) "import_assets" = .pending ∧
    loadState (fun _ => none) 0 (ReadResult.data "bad json") = .error "failed to parse state file" ∧
    (∃ e, loadMapping (fun _ => (none : Option Mapping)) ReadResult.notExist = .error e) := by
  have h := loadState_notExist_fresh (fun _ => none) (fun _ => (none : Option Mapping)) 0
  exact ⟨h.1, h.2.2.2.1 "import_assets", h.2.2.2.2.2.1 "bad json" rfl, h.2.2.2.2.2.2.2⟩

theorem soft_delete_filter_split {α : Type} (f : α → Int) (l : List α)
    (h : ∀ x ∈ l, 0 ≤ f x) :
    l.filter (fun x => !decide (0 < f x)) = l.filter (fun x => decide (f x = 0)) ∧
    (l.filter (fun x => decide (f x = 0))).length
      + (l.filter (fun x => decide (f x ≠ 0))).length = l.length := by
  constructor
  · refine List.filter_congr (fun x hx => ?_)
    have h0 := h x hx
    rw [← decide_not]
    exact decide_eq_decide.mpr (by omega)
  · have hsplit := List.length_eq_length_filter_add (l := l) (fun x => decide (f x = 0))
    have hne : l.filter (fun x => !decide (f x = 0)) = l.filter (fun x => decide (f x ≠ 0)) :=
      List.filter_congr (fun x _ => by rw [← decide_not])
    rw [← hne]
    omega

/-- Sample records for the filter witness. -/
def sampleAssets : Mattermost.Assets :=
  { exportedAt := 100, version := "1.0"
    users := [{ id := "u1", username := "alice", firstName := "A", lastName := "L", deleteAt := 0 },
              { id := "u2", username := "bob", firstName := "B", lastName := "M", deleteAt := 50 }]
    teams := [{ id := "t1", displayName := "T", description := "", type := "O", deleteAt := 0 }]
    channels := [{ id := "c1", teamId := "t1", displayName := "general", header := "",
                   purpose := "", type := "O", deleteAt := 7 }] }

/-- Sample membership rows for the filter witness. -/
def sampleMemberships : Mattermost.Memberships :=
  { exportedAt := 100, version := "1.0"
    teamMembers := [{ teamId := "t1", userId := "u1", deleteAt := 0 },
                    { teamId := "t1", userId := "u2", deleteAt := 3 }]
    channelMembers := [{ channelId := "c1", userId := "u1" }] }

open Mattermost in
/-- C6: the export filters keep exactly the rows whose tombstone is
zero, in input order, so kept + soft-deleted = total, for users, teams
and channels of the assets group and for the team-membership rows;
channel-membership rows carry no tombstone field at all, so all of them
are kept.  (Tombstones are Unix-milli timestamps, hence the
nonnegativity hypotheses.) -/
theorem filterActive_removes_exactly_soft_deleted (a : Assets) (ms : Memberships)
    (hu : ∀ u ∈ a.users, 0 ≤ u.deleteAt)
    (ht : ∀ t ∈ a.teams, 0 ≤ t.deleteAt)
    (hc : ∀ c ∈ a.channels, 0 ≤ c.deleteAt)
    (htm : ∀ tm ∈ ms.teamMembers, 0 ≤ tm.deleteAt) :
    ((filterActiveAssets a).users = a.users.filter (fun u => decide (u.deleteAt = 0)) ∧
      (filterActiveAssets a).users.length
        + (a.users.filter (fun u => decide (u.deleteAt ≠ 0))).length = a.users.length) ∧
    ((filterActiveAssets a).teams = a.teams.filter (fun t => decide (t.deleteAt = 0)) ∧
      (filterActiveAssets a).teams.length
        + (a.teams.filter (fun t => decide (t.deleteAt ≠ 0))).length = a.teams.length) ∧
    ((filterActiveAssets a).channels = a.channels.filter (fun c => decide (c.deleteAt = 0)) ∧
      (filterActiveAssets a).channels.length
        + (a.channels.filter (fun c => decide (c.deleteAt ≠ 0))).length = a.channels.length) ∧
    ((filterActiveMemberships ms).teamMembers
        = ms.teamMembers.filter (fun tm => decide (tm.deleteAt = 0)) ∧
      (filterActiveMemberships ms).teamMembers.length
        + (ms.teamMembers.filter (fun tm => decide (tm.deleteAt ≠ 0))).length
        = ms.teamMembers.length) ∧
    (filterActiveMemberships ms).channelMembers = ms.channelMembers := by
  obtain ⟨e1, c1⟩ := soft_delete_filter_split User.deleteAt a.users hu
  obtain ⟨e2, c2⟩ := soft_delete_filter_split Team.deleteAt a.teams ht
  obtain ⟨e3, c3⟩ := soft_delete_filter_split Channel.deleteAt a.channels hc
  obtain ⟨e4, c4⟩ := soft_delete_filter_split TeamMember.deleteAt ms.teamMembers htm
  simp only [filterActiveAssets, filterActiveMemberships, User.isDeleted, Team.isDeleted,
    Channel.isDeleted, TeamMember.isDeleted]
  refine ⟨⟨e1, ?_⟩, ⟨e2, ?_⟩, ⟨e3, ?_⟩, ⟨e4, ?_⟩, by trivial⟩
  · rw [e1]; exact c1
  · rw [e2]; exact c2
  · rw [e3]; exact c3
  · rw [e4]; exact c4

/-- Witness for C6 on concrete data: one of two users is soft-deleted
and only the active one survives, the sole active team survives, the
soft-deleted channel is dropped, one of two team memberships survives,
and the channel-membership row is kept. -/
theorem filterActive_removes_exactly_soft_deleted_witness :
    (Mattermost.filterActiveAssets sampleAssets).users.map Mattermost.User.id = ["u1"] ∧
    (Mattermost.filterActiveAssets sampleAssets).users.length + 1 = sampleAssets.users.length ∧
    (Mattermost.filterActiveAssets sampleAssets).channels = [] ∧
    (Mattermost.filterActiveMemberships sampleMemberships).teamMembers.length = 1 ∧
    (Mattermost.filterActiveMemberships sampleMemberships).channelMembers
      = sampleMemberships.channelMembers := by
  have h := filterActive_removes_exactly_soft_deleted sampleAssets sampleMemberships
    (by decide) (by decide) (by decide) (by decide)
  refine ⟨?_, ?_, ?_, ?_, h.2.2.2.2⟩
  · rw [h.1.1]; decide
  · rw [h.1.1]; decide
  · rw [h.2.2.1.1]; decide
  · rw [h.2.2.2.1.1]; decide

theorem doRequestWithRetryAux_all429 (responses : Nat → HttpAttempt) (maxRetries : Nat)
    (base : Int) (h429 : ∀ n, (responses n).status = 429) :
    ∀ (budget rc : Nat),
      doRequestWithRetryAux responses maxRetries base rc budget =
        { result := .error ("rate limit exceeded after " ++ toString maxRetries ++ " retries")
          requests := budget + 1
          sleeps := (List.range' rc budget).map
            (fun i => computeRetryDelay base i (responses i).retryAfter) } := by
  intro budget
  induction budget with
  | zero => intro rc; simp [doRequestWithRetryAux, h429 rc]
  | succ b ih =>
    intro rc
    simp [doRequestWithRetryAux, h429 rc, ih (rc + 1), List.range'_succ]

/-- C3 (as amended): under uniform 429 responses the loop issues exactly
`maxRetries + 1` requests, sleeps `maxRetries` times and fails with the
terminal rate-limit error; a positive configured max-retries is used
as-is; and each sleep is the `Retry-After` header (integer seconds) when
it parses as a nonzero integer — a negative value is used as-is — else
`base * 2^retryCount`, capped at 60 seconds. -/
theorem rate_limit_retry_behaviour (responses : Nat → HttpAttempt) (maxRetries : Nat)
    (base : Int) (h429 : ∀ n, (responses n).status = 429) :
    ((doRequestWithRetry responses maxRetries base).result =
      .error ("rate limit exceeded after " ++ toString maxRetries ++ " retries")) ∧
    ((doRequestWithRetry responses maxRetries base).requests = maxRetries + 1) ∧
    ((doRequestWithRetry responses maxRetries base).sleeps =
      (List.range maxRetries).map
        (fun i => computeRetryDelay base i (responses i).retryAfter)) ∧
    (∀ c : Int, 1 ≤ c → effectiveMaxRetries c = c) ∧
    (∀ (rc : Nat) (hdr : String) (n : Int), hdr ≠ "" → goAtoi hdr = some n → n ≠ 0 →
      computeRetryDelay base rc hdr =
        if n * nsPerSecond > 60 * nsPerSecond then 60 * nsPerSecond
        else n * nsPerSecond) ∧
    (∀ (rc : Nat) (hdr : String), goAtoi hdr = none ∨ goAtoi hdr = some 0 →
      computeRetryDelay base rc hdr =
        if base * 2 ^ rc > 60 * nsPerSecond then 60 * nsPerSecond
        else base * 2 ^ rc) := by
  have haux := doRequestWithRetryAux_all429 responses maxRetries base h429 maxRetries 0
  rw [doRequestWithRetry, haux]
  refine ⟨rfl, rfl, by rw [List.range_eq_range'], ?_, ?_, ?_⟩
  · intro c hc
    simp only [effectiveMaxRetries]
    rw [if_neg (by omega)]
  · intro rc hdr n hne hat hn0
    simp only [computeRetryDelay, hne, hat, ne_eq, not_false_eq_true, if_true]
    have hnz : ¬(n * nsPerSecond = 0) := by
      intro hh
      rcases Int.mul_eq_zero.mp hh with h | h
      · exact hn0 h
      · exact absurd h (by decide)
    rw [if_neg hnz]
  · intro rc hdr hcase
    simp only [computeRetryDelay]
    by_cases hne : hdr = ""
    · simp [hne]
    · rcases hcase with h | h <;> simp [hne, h]

/-- Witness for C3 (amended): three retries at base delay 2 s with no
Retry-After header: four requests, sleeps 2 s, 4 s, 8 s, terminal
rate-limit error. -/
theorem rate_limit_retry_behaviour_witness :
    (doRequestWithRetry (fun _ => { status := 429, retryAfter := "" }) 3
      2000000000).requests = 4 ∧
    (doRequestWithRetry (fun _ => { status := 429, retryAfter := "" }) 3
      2000000000).sleeps = [2000000000, 4000000000, 8000000000] ∧
    (doRequestWithRetry (fun _ => { status := 429, retryAfter := "" }) 3
      2000000000).result = .error "rate limit exceeded after 3 retries" := by
  have h := rate_limit_retry_behaviour (fun _ => { status := 429, retryAfter := "" }) 3
    2000000000 (fun _ => rfl)
  refine ⟨h.2.1, ?_, ?_⟩
  · rw [h.2.2.1]; decide
  · rw [h.1]
    exact congrArg Except.error (by decide)

/-- Counterexample for C3 as frozen: on a `Retry-After: -5` header at
retry count 0 with base delay 2 s, the code sleeps the parsed value
-5 s as-is (i.e. not at all), while the claimed rule ("header when
present and > 0, else exponential backoff") prescribes 2 s. -/
theorem rate_limit_retry_claim_counterexample :
    computeRetryDelay 2000000000 0 "-5" = -5000000000 ∧
    claimRetryDelay 2000000000 0 "-5" = 2000000000 ∧
    computeRetryDelay 2000000000 0 "-5" ≠ claimRetryDelay 2000000000 0 "-5" := by
  refine ⟨by decide, by decide, by decide⟩

/-- C8 (as amended): `InviteUser` treats every 403 response whose parsed
errcode is `M_FORBIDDEN` as success — the already-a-member response, but
equally any authorization denial carrying that errcode; a 403 with any
other parsed errcode and every other non-200 status are reported as
errors; a 200 is success. -/
theorem inviteUser_forbidden_handling (status : Nat) (b : ApiBody) :
    (status = 403 → b.errcode = "M_FORBIDDEN" → inviteUserResult status b = .ok ()) ∧
    (status = 403 → b.errcode ≠ "M_FORBIDDEN" →
      inviteUserResult status b = .error (apiErrorMsg status b)) ∧
    (status ≠ 403 → status ≠ 200 →
      inviteUserResult status b = .error (apiErrorMsg status b)) ∧
    (status = 200 → inviteUserResult status b = .ok ()) := by
  refine ⟨?_, ?_, ?_, ?_⟩
  · intro h1 h2; simp [inviteUserResult, h1, h2]
  · intro h1 h2; simp [inviteUserResult, h1, h2]
  · intro h1 h2; simp [inviteUserResult, h1, h2]
  · intro h1; simp [inviteUserResult, h1]

/-- Witness for C8 (amended) at concrete responses: an already-member
403/M_FORBIDDEN is success, a 403 carrying a different errcode is an
error, and a 401 is an error. -/
theorem inviteUser_forbidden_handling_witness :
    inviteUserResult 403 { errcode := "M_FORBIDDEN", errmsg := "@a:x is already in the room." }
      = .ok () ∧
    inviteUserResult 403 { errcode := "M_LIMIT_EXCEEDED", errmsg := "slow down" }
      = .error (apiErrorMsg 403 { errcode := "M_LIMIT_EXCEEDED", errmsg := "slow down" }) ∧
    inviteUserResult 401 { errcode := "M_UNKNOWN_TOKEN", errmsg := "bad token" }
      = .error (apiErrorMsg 401 { errcode := "M_UNKNOWN_TOKEN", errmsg := "bad token" }) := by
  refine ⟨(inviteUser_forbidden_handling 403 _).1 rfl rfl,
    (inviteUser_forbidden_handling 403 _).2.1 rfl (by decide),
    (inviteUser_forbidden_handling 401 _).2.2.1 (by decide) (by decide)⟩

theorem importUserStep_cases (hs : String) (oracle : UserOracle) (ex : GoDict)
    (st : PipeState) (u : Mattermost.User) :
    ((u.isDeleted = true ∨ (dictGet ex u.id).isSome = true) ∧
      importUserStep hs oracle ex st u =
        { st with stats := { st.stats with usersSkipped := st.stats.usersSkipped + 1 } }) ∨
    (∃ v, importUserStep hs oracle ex st u =
      { st with
          mapping := dictInsert st.mapping u.id v,
          stats := { st.stats with usersSkipped := st.stats.usersSkipped + 1 } }) ∨
    (∃ v, importUserStep hs oracle ex st u =
      { st with
          mapping := dictInsert st.mapping u.id v,
          stats := { st.stats with usersSkipped := st.stats.usersSkipped + 1 },
          createCalls := st.createCalls ++ [u.username] }) ∨
    (∃ v, importUserStep hs oracle ex st u =
      { st with
          mapping := dictInsert st.mapping u.id v,
          stats := { st.stats with usersCreated := st.stats.usersCreated + 1 },
          createCalls := st.createCalls ++ [u.username] }) ∨
    (importUserStep hs oracle ex st u =
      { st with
          stats := { st.stats with usersFailed := st.stats.usersFailed + 1 },
          createCalls := st.createCalls ++ [u.username] }) := by
  by_cases hd : u.isDeleted = true
  · exact .inl ⟨.inl hd, by simp [importUserStep, hd]⟩
  · by_cases hm : (dictGet ex u.id).isSome = true
    · exact .inl ⟨.inr hm, by simp [importUserStep, hd, hm]⟩
    · cases hue : oracle.userExists u.username with
      | ok b =>
        cases b with
        | true => exact .inr (.inl ⟨formatUserID hs u.username, by simp [importUserStep, hd, hm, hue]⟩)
        | false =>
          cases huc : oracle.createUser u.username with
          | ok v =>
            exact .inr (.inr (.inr (.inl ⟨v, by simp [importUserStep, hd, hm, hue, huc]⟩)))
          | error e =>
            by_cases hconf : (strContains e "already exists" || strContains e "M_USER_IN_USE")
              = true
            · exact .inr (.inr (.inl ⟨formatUserID hs u.username, by simp [importUserStep, hd, hm, hue, huc, hconf]⟩))
            · exact .inr (.inr (.inr (.inr
                (by simp [importUserStep, hd, hm, hue, huc, hconf]))))
      | error err =>
        cases huc : oracle.createUser u.username with
        | ok v =>
          exact .inr (.inr (.inr (.inl ⟨v, by simp [importUserStep, hd, hm, hue, huc]⟩)))
        | error e =>
          by_cases hconf : (strContains e "already exists" || strContains e "M_USER_IN_USE")
            = true
          · exact .inr (.inr (.inl ⟨formatUserID hs u.username, by simp [importUserStep, hd, hm, hue, huc, hconf]⟩))
          · exact .inr (.inr (.inr (.inr
              (by simp [importUserStep, hd, hm, hue, huc, hconf]))))

theorem importUserStep_skip (hs : String) (oracle : UserOracle) (ex : GoDict)
    (st : PipeState) (u : Mattermost.User)
    (h : u.isDeleted = true ∨ (dictGet ex u.id).isSome = true) :
    importUserStep hs oracle ex st u =
      { st with stats := { st.stats with usersSkipped := st.stats.usersSkipped + 1 } } := by
  by_cases hd : u.isDeleted = true
  · simp [importUserStep, hd]
  · rcases h with h | h
    · exact absurd h hd
    · simp [importUserStep, hd, h]

theorem importUserStep_mapping_mono (hs : String) (oracle : UserOracle) (ex : GoDict)
    (st : PipeState) (u : Mattermost.User) (k : String)
    (h : (dictGet st.mapping k).isSome = true) :
    (dictGet (importUserStep hs oracle ex st u).mapping k).isSome = true := by
  rcases importUserStep_cases hs oracle ex st u with ⟨_, he⟩ | ⟨v, he⟩ | ⟨v, he⟩ | ⟨v, he⟩ | he <;>
    rw [he] <;> first
      | exact h
      | exact dictGet_isSome_insert st.mapping u.id _ k h

theorem importUserStep_failed_le (hs : String) (oracle : UserOracle) (ex : GoDict)
    (st : PipeState) (u : Mattermost.User) :
    st.stats.usersFailed ≤ (importUserStep hs oracle ex st u).stats.usersFailed := by
  rcases importUserStep_cases hs oracle ex st u with ⟨_, he⟩ | ⟨v, he⟩ | ⟨v, he⟩ | ⟨v, he⟩ | he <;>
    rw [he] <;> simp

theorem importUsers_foldl_failed_mono (hs : String) (oracle : UserOracle) (ex : GoDict) :
    ∀ (users : List Mattermost.User) (st : PipeState),
      st.stats.usersFailed ≤
        (users.foldl (importUserStep hs oracle ex) st).stats.usersFailed := by
  intro users
  induction users with
  | nil => intro st; simp
  | cons u tl ih =>
    intro st
    rw [List.foldl_cons]
    exact le_trans (importUserStep_failed_le hs oracle ex st u) (ih _)

theorem importUsers_foldl_mapping_mono (hs : String) (oracle : UserOracle) (ex : GoDict) :
    ∀ (users : List Mattermost.User) (st : PipeState) (k : String),
      (dictGet st.mapping k).isSome = true →
      (dictGet ((users.foldl (importUserStep hs oracle ex) st)).mapping k).isSome = true := by
  intro users
  induction users with
  | nil => intro st k h; exact h
  | cons u tl ih =>
    intro st k h
    rw [List.foldl_cons]
    exact ih _ k (importUserStep_mapping_mono hs oracle ex st u k h)

theorem importUsers_foldl_success_mapped (hs : String) (oracle : UserOracle) (ex : GoDict) :
    ∀ (users : List Mattermost.User) (st : PipeState),
      (∀ k, (dictGet ex k).isSome = true → (dictGet st.mapping k).isSome = true) →
      (users.foldl (importUserStep hs oracle ex) st).stats.usersFailed
        = st.stats.usersFailed →
      ∀ u ∈ users, u.isDeleted = true ∨
        (dictGet ((users.foldl (importUserStep hs oracle ex) st)).mapping u.id).isSome
          = true := by
  intro users
  induction users with
  | nil => intro st _ _ u hu; exact absurd hu (List.not_mem_nil u)
  | cons u0 tl ih =>
    intro st hext hfail u hu
    rw [List.foldl_cons] at hfail ⊢
    have h1 := importUserStep_failed_le hs oracle ex st u0
    have h2 := importUsers_foldl_failed_mono hs oracle ex tl (importUserStep hs oracle ex st u0)
    have hstep : (importUserStep hs oracle ex st u0).stats.usersFailed
        = st.stats.usersFailed := by omega
    have hext' : ∀ k, (dictGet ex k).isSome = true →
        (dictGet (importUserStep hs oracle ex st u0).mapping k).isSome = true :=
      fun k hk => importUserStep_mapping_mono hs oracle ex st u0 k (hext k hk)
    rcases List.mem_cons.mp hu with rfl | hu'
    · rcases importUserStep_cases hs oracle ex st u with ⟨hcond, he⟩ | ⟨v, he⟩ | ⟨v, he⟩
        | ⟨v, he⟩ | he
      · rcases hcond with hdel | hmap
        · exact .inl hdel
        · refine .inr (importUsers_foldl_mapping_mono hs oracle ex tl _ u.id ?_)
          rw [he]
          exact hext u.id hmap
      · refine .inr (importUsers_foldl_mapping_mono hs oracle ex tl _ u.id ?_)
        rw [he]
        simp [dictGet_insert]
      · refine .inr (importUsers_foldl_mapping_mono hs oracle ex tl _ u.id ?_)
        rw [he]
        simp [dictGet_insert]
      · refine .inr (importUsers_foldl_mapping_mono hs oracle ex tl _ u.id ?_)
        rw [he]
        simp [dictGet_insert]
      · rw [he] at hstep
        simp at hstep
    · refine ih _ hext' ?_ u hu'
      omega

theorem importUsers_foldl_all_mapped (hs : String) (oracle : UserOracle) (ex : GoDict) :
    ∀ (users : List Mattermost.User) (st : PipeState),
      (∀ u ∈ users, u.isDeleted = true ∨ (dictGet ex u.id).isSome = true) →
      users.foldl (importUserStep hs oracle ex) st =
        { st with stats :=
          { st.stats with usersSkipped := st.stats.usersSkipped + users.length } } := by
  intro users
  induction users with
  | nil => intro st _; simp
  | cons u tl ih =>
    intro st h
    rw [List.foldl_cons, importUserStep_skip hs oracle ex st u (h u (by simp)),
      ih _ (fun u' hu' => h u' (by simp [hu']))]
    simp only [List.length_cons]
    congr 2
    omega

theorem importTeamStep_cases (oracle : SpaceOracle) (ex : GoDict)
    (st : PipeState) (t : Mattermost.Team) :
    ((t.isDeleted = true ∨ (dictGet ex t.id).isSome = true) ∧
      importTeamStep oracle ex st t =
        { st with stats := { st.stats with spacesSkipped := st.stats.spacesSkipped + 1 } }) ∨
    (∃ v, importTeamStep oracle ex st t =
      { st with
          mapping := dictInsert st.mapping t.id v,
          stats := { st.stats with spacesCreated := st.stats.spacesCreated + 1 },
          createCalls := st.createCalls ++ [t.id] }) ∨
    (importTeamStep oracle ex st t =
      { st with
          stats := { st.stats with spacesFailed := st.stats.spacesFailed + 1 },
          createCalls := st.createCalls ++ [t.id] }) := by
  by_cases hd : t.isDeleted = true
  · exact .inl ⟨.inl hd, by simp [importTeamStep, hd]⟩
  · by_cases hm : (dictGet ex t.id).isSome = true
    · exact .inl ⟨.inr hm, by simp [importTeamStep, hd, hm]⟩
    · cases huc : oracle.createSpace t.displayName t.description t.isOpen with
      | ok v => exact .inr (.inl ⟨v, by simp [importTeamStep, hd, hm, huc]⟩)
      | error e => exact .inr (.inr (by simp [importTeamStep, hd, hm, huc]))

theorem importTeamStep_skip (oracle : SpaceOracle) (ex : GoDict)
    (st : PipeState) (t : Mattermost.Team)
    (h : t.isDeleted = true ∨ (dictGet ex t.id).isSome = true) :
    importTeamStep oracle ex st t =
      { st with stats := { st.stats with spacesSkipped := st.stats.spacesSkipped + 1 } } := by
  by_cases hd : t.isDeleted = true
  · simp [importTeamStep, hd]
  · rcases h with h | h
    · exact absurd h hd
    · simp [importTeamStep, hd, h]

theorem importTeamStep_mapping_mono (oracle : SpaceOracle) (ex : GoDict)
    (st : PipeState) (t : Mattermost.Team) (k : String)
    (h : (dictGet st.mapping k).isSome = true) :
    (dictGet (importTeamStep oracle ex st t).mapping k).isSome = true := by
  rcases importTeamStep_cases oracle ex st t with ⟨_, he⟩ | ⟨v, he⟩ | he <;>
    rw [he] <;> first
      | exact h
      | exact dictGet_isSome_insert st.mapping t.id _ k h

theorem importTeamStep_failed_le (oracle : SpaceOracle) (ex : GoDict)
    (st : PipeState) (t : Mattermost.Team) :
    st.stats.spacesFailed ≤ (importTeamStep oracle ex st t).stats.spacesFailed := by
  rcases importTeamStep_cases oracle ex st t with ⟨_, he⟩ | ⟨v, he⟩ | he <;>
    rw [he] <;> simp

theorem importTeams_foldl_failed_mono (oracle : SpaceOracle) (ex : GoDict) :
    ∀ (teams : List Mattermost.Team) (st : PipeState),
      st.stats.spacesFailed ≤
        (teams.foldl (importTeamStep oracle ex) st).stats.spacesFailed := by
  intro teams
  induction teams with
  | nil => intro st; simp
  | cons t tl ih =>
    intro st
    rw [List.foldl_cons]
    exact le_trans (importTeamStep_failed_le oracle ex st t) (ih _)

theorem importTeams_foldl_mapping_mono (oracle : SpaceOracle) (ex : GoDict) :
    ∀ (teams : List Mattermost.Team) (st : PipeState) (k : String),
      (dictGet st.mapping k).isSome = true →
      (dictGet ((teams.foldl (importTeamStep oracle ex) st)).mapping k).isSome = true := by
  intro teams
  induction teams with
  | nil => intro st k h; exact h
  | cons t tl ih =>
    intro st k h
    rw [List.foldl_cons]
    exact ih _ k (importTeamStep_mapping_mono oracle ex st t k h)

theorem importTeams_foldl_success_mapped (oracle : SpaceOracle) (ex : GoDict) :
    ∀ (teams : List Mattermost.Team) (st : PipeState),
      (∀ k, (dictGet ex k).isSome = true → (dictGet st.mapping k).isSome = true) →
      (teams.foldl (importTeamStep oracle ex) st).stats.spacesFailed
        = st.stats.spacesFailed →
      ∀ t ∈ teams, t.isDeleted = true ∨
        (dictGet ((teams.foldl (importTeamStep oracle ex) st)).mapping t.id).isSome
          = true := by
  intro teams
  induction teams with
  | nil => intro st _ _ t ht; exact absurd ht (List.not_mem_nil t)
  | cons t0 tl ih =>
    intro st hext hfail t ht
    rw [List.foldl_cons] at hfail ⊢
    have h1 := importTeamStep_failed_le oracle ex st t0
    have h2 := importTeams_foldl_failed_mono oracle ex tl (importTeamStep oracle ex st t0)
    have hstep : (importTeamStep oracle ex st t0).stats.spacesFailed
        = st.stats.spacesFailed := by omega
    have hext' : ∀ k, (dictGet ex k).isSome = true →
        (dictGet (importTeamStep oracle ex st t0).mapping k).isSome = true :=
      fun k hk => importTeamStep_mapping_mono oracle ex st t0 k (hext k hk)
    rcases List.mem_cons.mp ht with rfl | ht'
    · rcases importTeamStep_cases oracle ex st t with ⟨hcond, he⟩ | ⟨v, he⟩ | he
      · rcases hcond with hdel | hmap
        · exact .inl hdel
        · refine .inr (importTeams_foldl_mapping_mono oracle ex tl _ t.id ?_)
          rw [he]
          exact hext t.id hmap
      · refine .inr (importTeams_foldl_mapping_mono oracle ex tl _ t.id ?_)
        rw [he]
        simp [dictGet_insert]
      · rw [he] at hstep
        simp at hstep
    · refine ih _ hext' ?_ t ht'
      omega

theorem importTeams_foldl_all_mapped (oracle : SpaceOracle) (ex : GoDict) :
    ∀ (teams : List Mattermost.Team) (st : PipeState),
      (∀ t ∈ teams, t.isDeleted = true ∨ (dictGet ex t.id).isSome = true) →
      teams.foldl (importTeamStep oracle ex) st =
        { st with stats :=
          { st.stats with spacesSkipped := st.stats.spacesSkipped + teams.length } } := by
  intro teams
  induction teams with
  | nil => intro st _; simp
  | cons t tl ih =>
    intro st h
    rw [List.foldl_cons, importTeamStep_skip oracle ex st t (h t (by simp)),
      ih _ (fun t' ht' => h t' (by simp [ht']))]
    simp only [List.length_cons]
    congr 2
    omega

theorem importChannelStep_cases (oracle : RoomOracle) (ex : GoDict)
    (st : PipeState) (c : Mattermost.Channel) :
    ((c.isDeleted = true ∨ c.isDirect = true ∨ c.isGroup = true ∨
        (dictGet ex c.id).isSome = true) ∧
      importChannelStep oracle ex st c =
        { st with stats := { st.stats with roomsSkipped := st.stats.roomsSkipped + 1 } }) ∨
    (∃ v, importChannelStep oracle ex st c =
      { st with
          mapping := dictInsert st.mapping c.id v,
          stats := { st.stats with roomsCreated := st.stats.roomsCreated + 1 },
          createCalls := st.createCalls ++ [c.id] }) ∨
    (importChannelStep oracle ex st c =
      { st with
          stats := { st.stats with roomsFailed := st.stats.roomsFailed + 1 },
          createCalls := st.createCalls ++ [c.id] }) := by
  by_cases hd : c.isDeleted = true
  · exact .inl ⟨.inl hd, by simp [importChannelStep, hd]⟩
  · by_cases hdg : (c.isDirect || c.isGroup) = true
    · refine .inl ⟨?_, by simp [importChannelStep, hd, hdg]⟩
      rcases Bool.or_eq_true_iff.mp hdg with h | h
      · exact .inr (.inl h)
      · exact .inr (.inr (.inl h))
    · by_cases hm : (dictGet ex c.id).isSome = true
      · exact .inl ⟨.inr (.inr (.inr hm)), by simp [importChannelStep, hd, hdg, hm]⟩
      · cases huc : oracle.createRoom c.displayName
          (if c.purpose = "" then c.header else c.purpose) c.isPublic with
        | ok v => exact .inr (.inl ⟨v, by simp [importChannelStep, hd, hdg, hm, huc]⟩)
        | error e => exact .inr (.inr (by simp [importChannelStep, hd, hdg, hm, huc]))

theorem importChannelStep_skip (oracle : RoomOracle) (ex : GoDict)
    (st : PipeState) (c : Mattermost.Channel)
    (h : c.isDeleted = true ∨ c.isDirect = true ∨ c.isGroup = true ∨
      (dictGet ex c.id).isSome = true) :
    importChannelStep oracle ex st c =
      { st with stats := { st.stats with roomsSkipped := st.stats.roomsSkipped + 1 } } := by
  by_cases hd : c.isDeleted = true
  · simp [importChannelStep, hd]
  · by_cases hdg : (c.isDirect || c.isGroup) = true
    · simp [importChannelStep, hd, hdg]
    · rcases h with h | h | h | h
      · exact absurd h hd
      · exact absurd (Bool.or_eq_true_iff.mpr (.inl h)) hdg
      · exact absurd (Bool.or_eq_true_iff.mpr (.inr h)) hdg
      · simp [importChannelStep, hd, hdg, h]

theorem importChannelStep_mapping_mono (oracle : RoomOracle) (ex : GoDict)
    (st : PipeState) (c : Mattermost.Channel) (k : String)
    (h : (dictGet st.mapping k).isSome = true) :
    (dictGet (importChannelStep oracle ex st c).mapping k).isSome = true := by
  rcases importChannelStep_cases oracle ex st c with ⟨_, he⟩ | ⟨v, he⟩ | he <;>
    rw [he] <;> first
      | exact h
      | exact dictGet_isSome_insert st.mapping c.id _ k h

theorem importChannelStep_failed_le (oracle : RoomOracle) (ex : GoDict)
    (st : PipeState) (c : Mattermost.Channel) :
    st.stats.roomsFailed ≤ (importChannelStep oracle ex st c).stats.roomsFailed := by
  rcases importChannelStep_cases oracle ex st c with ⟨_, he⟩ | ⟨v, he⟩ | he <;>
    rw [he] <;> simp

theorem importChannels_foldl_failed_mono (oracle : RoomOracle) (ex : GoDict) :
    ∀ (channels : List Mattermost.Channel) (st : PipeState),
      st.stats.roomsFailed ≤
        (channels.foldl (importChannelStep oracle ex) st).stats.roomsFailed := by
  intro channels
  induction channels with
  | nil => intro st; simp
  | cons c tl ih =>
    intro st
    rw [List.foldl_cons]
    exact le_trans (importChannelStep_failed_le oracle ex st c) (ih _)

theorem importChannels_foldl_mapping_mono (oracle : RoomOracle) (ex : GoDict) :
    ∀ (channels : List Mattermost.Channel) (st : PipeState) (k : String),
      (dictGet st.mapping k).isSome = true →
      (dictGet ((channels.foldl (importChannelStep oracle ex) st)).mapping k).isSome
        = true := by
  intro channels
  induction channels with
  | nil => intro st k h; exact h
  | cons c tl ih =>
    intro st k h
    rw [List.foldl_cons]
    exact ih _ k (importChannelStep_mapping_mono oracle ex st c k h)

theorem importChannels_foldl_success_mapped (oracle : RoomOracle) (ex : GoDict) :
    ∀ (channels : List Mattermost.Channel) (st : PipeState),
      (∀ k, (dictGet ex k).isSome = true → (dictGet st.mapping k).isSome = true) →
      (channels.foldl (importChannelStep oracle ex) st).stats.roomsFailed
        = st.stats.roomsFailed →
      ∀ c ∈ channels, c.isDeleted = true ∨ c.isDirect = true ∨ c.isGroup = true ∨
        (dictGet ((channels.foldl (importChannelStep oracle ex) st)).mapping c.id).isSome
          = true := by
  intro channels
  induction channels with
  | nil => intro st _ _ c hc; exact absurd hc (List.not_mem_nil c)
  | cons c0 tl ih =>
    intro st hext hfail c hc
    rw [List.foldl_cons] at hfail ⊢
    have h1 := importChannelStep_failed_le oracle ex st c0
    have h2 := importChannels_foldl_failed_mono oracle ex tl (importChannelStep oracle ex st c0)
    have hstep : (importChannelStep oracle ex st c0).stats.roomsFailed
        = st.stats.roomsFailed := by omega
    have hext' : ∀ k, (dictGet ex k).isSome = true →
        (dictGet (importChannelStep oracle ex st c0).mapping k).isSome = true :=
      fun k hk => importChannelStep_mapping_mono oracle ex st c0 k (hext k hk)
    rcases List.mem_cons.mp hc with rfl | hc'
    · rcases importChannelStep_cases oracle ex st c with ⟨hcond, he⟩ | ⟨v, he⟩ | he
      · rcases hcond with hdel | hdir | hgrp | hmap
        · exact .inl hdel
        · exact .inr (.inl hdir)
        · exact .inr (.inr (.inl hgrp))
        · refine .inr (.inr (.inr
            (importChannels_foldl_mapping_mono oracle ex tl _ c.id ?_)))
          rw [he]
          exact hext c.id hmap
      · refine .inr (.inr (.inr
          (importChannels_foldl_mapping_mono oracle ex tl _ c.id ?_)))
        rw [he]
        simp [dictGet_insert]
      · rw [he] at hstep
        simp at hstep
    · refine ih _ hext' ?_ c hc'
      omega

theorem importChannels_foldl_all_mapped (oracle : RoomOracle) (ex : GoDict) :
    ∀ (channels : List Mattermost.Channel) (st : PipeState),
      (∀ c ∈ channels, c.isDeleted = true ∨ c.isDirect = true ∨ c.isGroup = true ∨
        (dictGet ex c.id).isSome = true) →
      channels.foldl (importChannelStep oracle ex) st =
        { st with stats :=
          { st.stats with roomsSkipped := st.stats.roomsSkipped + channels.length } } := by
  intro channels
  induction channels with
  | nil => intro st _; simp
  | cons c tl ih =>
    intro st h
    rw [List.foldl_cons, importChannelStep_skip oracle ex st c (h c (by simp)),
      ih _ (fun c' hc' => h c' (by simp [hc']))]
    simp only [List.length_cons]
    congr 2
    omega

/-- C2: in every import pass, a record whose source ID is a key of the
existing mapping is counted skipped — not created — and triggers no
creation call (the step leaves mapping and call trace untouched);
consequently, when a first run ends with no failures, a re-run over the
same records with the mapping it produced creates nothing, skips every
record and issues no creation call at all. -/
theorem import_skips_already_mapped (hs : String)
    (uo uo2 : UserOracle) (so so2 : SpaceOracle) (ro ro2 : RoomOracle)
    (exU exT exC : GoDict)
    (users : List Mattermost.User) (teams : List Mattermost.Team)
    (channels : List Mattermost.Channel) :
    (∀ (st : PipeState) (u : Mattermost.User), (dictGet exU u.id).isSome = true →
      importUserStep hs uo exU st u =
        { st with stats :=
          { st.stats with usersSkipped := st.stats.usersSkipped + 1 } }) ∧
    (∀ (st : PipeState) (t : Mattermost.Team), (dictGet exT t.id).isSome = true →
      importTeamStep so exT st t =
        { st with stats :=
          { st.stats with spacesSkipped := st.stats.spacesSkipped + 1 } }) ∧
    (∀ (st : PipeState) (c : Mattermost.Channel), (dictGet exC c.id).isSome = true →
      importChannelStep ro exC st c =
        { st with stats :=
          { st.stats with roomsSkipped := st.stats.roomsSkipped + 1 } }) ∧
    ((importUsers hs uo users exU).stats.usersFailed = 0 →
      importUsers hs uo2 users (importUsers hs uo users exU).mapping =
        { mapping := (importUsers hs uo users exU).mapping,
          stats := { usersSkipped := users.length },
          createCalls := [] }) ∧
    ((importTeamsAsSpaces so teams exT).stats.spacesFailed = 0 →
      importTeamsAsSpaces so2 teams (importTeamsAsSpaces so teams exT).mapping =
        { mapping := (importTeamsAsSpaces so teams exT).mapping,
          stats := { spacesSkipped := teams.length },
          createCalls := [] }) ∧
    ((importChannelsAsRooms ro channels exC).stats.roomsFailed = 0 →
      importChannelsAsRooms ro2 channels (importChannelsAsRooms ro channels exC).mapping =
        { mapping := (importChannelsAsRooms ro channels exC).mapping,
          stats := { roomsSkipped := channels.length },
          createCalls := [] }) := by
  refine ⟨?_, ?_, ?_, ?_, ?_, ?_⟩
  · exact fun st u h => importUserStep_skip hs uo exU st u (.inr h)
  · exact fun st t h => importTeamStep_skip so exT st t (.inr h)
  · exact fun st c h => importChannelStep_skip ro exC st c (.inr (.inr (.inr h)))
  · intro hfail
    have hmapped := importUsers_foldl_success_mapped hs uo exU users
      { mapping := exU, stats := {}, createCalls := [] } (fun k hk => hk) hfail
    have hall := importUsers_foldl_all_mapped hs uo2
      (importUsers hs uo users exU).mapping users
      { mapping := (importUsers hs uo users exU).mapping, stats := {}, createCalls := [] }
      hmapped
    rw [importUsers, hall]
    simp
  · intro hfail
    have hmapped := importTeams_foldl_success_mapped so exT teams
      { mapping := exT, stats := {}, createCalls := [] } (fun k hk => hk) hfail
    have hall := importTeams_foldl_all_mapped so2
      (importTeamsAsSpaces so teams exT).mapping teams
      { mapping := (importTeamsAsSpaces so teams exT).mapping, stats := {},
        createCalls := [] } hmapped
    rw [importTeamsAsSpaces, hall]
    simp
  · intro hfail
    have hmapped := importChannels_foldl_success_mapped ro exC channels
      { mapping := exC, stats := {}, createCalls := [] } (fun k hk => hk) hfail
    have hall := importChannels_foldl_all_mapped ro2
      (importChannelsAsRooms ro channels exC).mapping channels
      { mapping := (importChannelsAsRooms ro channels exC).mapping, stats := {},
        createCalls := [] } hmapped
    rw [importChannelsAsRooms, hall]
    simp

/-- A user oracle that creates every user it is asked about. -/
def sampleUserOracle : UserOracle :=
  { userExists := fun _ => .ok false
    createUser := fun un => .ok ("@" ++ un ++ ":matrix.example") }

/-- A space oracle that creates every space. -/
def sampleSpaceOracle : SpaceOracle := { createSpace := fun _ _ _ => .ok "!space:matrix.example" }

/-- A room oracle that creates every room. -/
def sampleRoomOracle : RoomOracle := { createRoom := fun _ _ _ => .ok "!room:matrix.example" }

/-- Witness for C2 on concrete data: a first user-import run over two
users with an empty existing mapping creates both and fails none, and
the re-run with the produced mapping skips both, creates none, and
issues no creation call; the per-record part at an already-mapped
record increments only the skipped counter. -/
theorem import_skips_already_mapped_witness :
    (importUsers "matrix.example" sampleUserOracle sampleAssets.users []).stats.usersFailed
      = 0 ∧
    importUsers "matrix.example" sampleUserOracle sampleAssets.users
      (importUsers "matrix.example" sampleUserOracle sampleAssets.users []).mapping =
      { mapping := (importUsers "matrix.example" sampleUserOracle sampleAssets.users []).mapping,
        stats := { usersSkipped := sampleAssets.users.length },
        createCalls := [] } ∧
    importUserStep "matrix.example" sampleUserOracle [("u1", "@alice:matrix.example")]
      { mapping := [("u1", "@alice:matrix.example")], stats := {}, createCalls := [] }
      { id := "u1", username := "alice", firstName := "A", lastName := "L", deleteAt := 0 } =
      { mapping := [("u1", "@alice:matrix.example")],
        stats := { usersSkipped := 1 },
        createCalls := [] } := by
  have h := import_skips_already_mapped "matrix.example" sampleUserOracle sampleUserOracle
    sampleSpaceOracle sampleSpaceOracle sampleRoomOracle sampleRoomOracle
    [("u1", "@alice:matrix.example")] [] [] sampleAssets.users [] []
  refine ⟨by decide, h.2.2.2.1 (by decide), ?_⟩
  have h2 := h.1
    { mapping := [("u1", "@alice:matrix.example")], stats := {}, createCalls := [] }
    { id := "u1", username := "alice", firstName := "A", lastName := "L", deleteAt := 0 }
    (by decide)
  rw [h2]

/-- C7: in both membership pipelines, a record either of whose sides
does not resolve through the corresponding mapping is counted skipped —
not failed — with no invite call issued for it, and an invite call is
only ever issued when both sides resolve (and then invites exactly the
resolved pair). -/
theorem membership_missing_mapping_skips (oracle : InviteOracle)
    (userMapping spaceMapping roomMapping : GoDict) :
    (∀ (st : MembState) (m : Mattermost.TeamMember),
      dictGet userMapping m.userId = none ∨ dictGet spaceMapping m.teamId = none →
      teamMembershipStep oracle userMapping spaceMapping st m =
        { st with stats :=
          { st.stats with membersSkipped := st.stats.membersSkipped + 1 } }) ∧
    (∀ (st : MembState) (m : Mattermost.ChannelMember),
      dictGet userMapping m.userId = none ∨ dictGet roomMapping m.channelId = none →
      channelMembershipStep oracle userMapping roomMapping st m =
        { st with stats :=
          { st.stats with membersSkipped := st.stats.membersSkipped + 1 } }) ∧
    (∀ (st : MembState) (m : Mattermost.TeamMember),
      (teamMembershipStep oracle userMapping spaceMapping st m).inviteCalls
        ≠ st.inviteCalls →
      ∃ userID spaceID, dictGet userMapping m.userId = some userID ∧
        dictGet spaceMapping m.teamId = some spaceID ∧
        (teamMembershipStep oracle userMapping spaceMapping st m).inviteCalls
          = st.inviteCalls ++ [(spaceID, userID)]) ∧
    (∀ (st : MembState) (m : Mattermost.ChannelMember),
      (channelMembershipStep oracle userMapping roomMapping st m).inviteCalls
        ≠ st.inviteCalls →
      ∃ userID roomID, dictGet userMapping m.userId = some userID ∧
        dictGet roomMapping m.channelId = some roomID ∧
        (channelMembershipStep oracle userMapping roomMapping st m).inviteCalls
          = st.inviteCalls ++ [(roomID, userID)]) := by
  refine ⟨?_, ?_, ?_, ?_⟩
  · intro st m h
    by_cases hd : m.isDeleted = true
    · simp [teamMembershipStep, hd]
    · rcases h with h | h
      · cases hx : dictGet spaceMapping m.teamId <;> simp [teamMembershipStep, hd, h, hx]
      · cases hx : dictGet userMapping m.userId <;> simp [teamMembershipStep, hd, h, hx]
  · intro st m h
    rcases h with h | h
    · cases hx : dictGet roomMapping m.channelId <;> simp [channelMembershipStep, h, hx]
    · cases hx : dictGet userMapping m.userId <;> simp [channelMembershipStep, h, hx]
  · intro st m hne
    by_cases hd : m.isDeleted = true
    · simp [teamMembershipStep, hd] at hne
    · cases hu : dictGet userMapping m.userId with
      | none => simp [teamMembershipStep, hd, hu] at hne
      | some userID =>
        cases hsd : dictGet spaceMapping m.teamId with
        | none => simp [teamMembershipStep, hd, hu, hsd] at hne
        | some spaceID =>
          refine ⟨userID, spaceID, rfl, rfl, ?_⟩
          cases hiv : oracle.inviteUser spaceID userID <;>
            simp [teamMembershipStep, hd, hu, hsd, hiv]
  · intro st m hne
    cases hu : dictGet userMapping m.userId with
    | none => simp [channelMembershipStep, hu] at hne
    | some userID =>
      cases hrd : dictGet roomMapping m.channelId with
      | none => simp [channelMembershipStep, hu, hrd] at hne
      | some roomID =>
        refine ⟨userID, roomID, rfl, rfl, ?_⟩
        cases hiv : oracle.inviteUser roomID userID <;>
          simp [channelMembershipStep, hu, hrd, hiv]

/-- An invite oracle that accepts every invite. -/
def sampleInviteOracle : InviteOracle := { inviteUser := fun _ _ => .ok () }

/-- Witness for C7 on concrete data: a channel membership whose channel
is absent from the room mapping is counted skipped with no invite call,
and a whole one-record pass ends all-skipped with an empty call
trace. -/
theorem membership_missing_mapping_skips_witness :
    channelMembershipStep sampleInviteOracle [("u1", "@alice:matrix.example")] []
      { stats := {}, inviteCalls := [] } { channelId := "c9", userId := "u1" } =
      { stats := { membersSkipped := 1 }, inviteCalls := [] } ∧
    applyChannelMemberships sampleInviteOracle [{ channelId := "c9", userId := "u1" }]
      [("u1", "@alice:matrix.example")] [] =
      { stats := { membersSkipped := 1 }, inviteCalls := [] } := by
  have h := (membership_missing_mapping_skips sampleInviteOracle
    [("u1", "@alice:matrix.example")] [] []).2.1
    { stats := {}, inviteCalls := [] } { channelId := "c9", userId := "u1" } (.inr rfl)
  exact ⟨h, by rw [applyChannelMemberships, List.foldl_cons, h]; rfl⟩

theorem stepsGet_stepsSet (steps : List (String × StepState)) (name : String)
    (stp : StepState) : stepsGet (stepsSet steps name stp) name = some stp := by
  induction steps with
  | nil => simp [stepsSet, stepsGet]
  | cons hd tl ih =>
    obtain ⟨a, b⟩ := hd
    by_cases ha : a = name
    · simp [stepsSet, stepsGet, ha]
    · simp [stepsSet, stepsGet, ha, ih]

theorem getStepStatus_completeStep (s : MigrationState) (name : String) (now : Int)
    (outputFile : String) :
    getStepStatus (completeStep s name now outputFile) name = .completed := by
  simp [getStepStatus, getStep, completeStep, stepsGet_stepsSet]

/-- C5: a per-item creation failure with a non-already-exists error only
increments the failed counter for that kind (mapping untouched) and the
fold continues with the remaining records; the pipeline call itself
always returns a nil error; and under successful I/O the orchestrator
then marks the import-assets step completed — not failed — carrying the
pipeline's statistics. -/
theorem per_item_failure_completes_step (hs : String) (oracle : UserOracle) (ex : GoDict)
    (st : PipeState) (u : Mattermost.User) (e : String) (rest : List Mattermost.User)
    (env : OrchestratorEnv) (s : MigrationState) (assets : Mattermost.Assets)
    (ir : ImportAssetsResult) :
    (u.isDeleted = false → dictGet ex u.id = none →
      oracle.userExists u.username = .ok false →
      oracle.createUser u.username = .error e →
      (strContains e "already exists" || strContains e "M_USER_IN_USE") = false →
      importUserStep hs oracle ex st u =
        { st with
            stats := { st.stats with usersFailed := st.stats.usersFailed + 1 },
            createCalls := st.createCalls ++ [u.username] }) ∧
    ((u :: rest).foldl (importUserStep hs oracle ex) st
      = rest.foldl (importUserStep hs oracle ex) (importUserStep hs oracle ex st u)) ∧
    (∃ r, importAssets env.homeserver env.oracles assets env.existingMappings
      = Except.ok r) ∧
    (env.connected = true → getStepStatus s "export_assets" = .completed →
      getStepOutputFile s "export_assets" ≠ "" → env.saveState = .ok () →
      env.loadAssets = .ok assets → env.saveMapping = .ok () →
      importAssets env.homeserver env.oracles assets env.existingMappings = .ok ir →
      (orchestratorImportAssets env s).1 =
        completeStep (startStep s "import_assets" env.now) "import_assets" env.now
          env.mappingFile ∧
      getStepStatus (orchestratorImportAssets env s).1 "import_assets" = .completed ∧
      (orchestratorImportAssets env s).2 = .ok
        { usersCreated := ir.stats.usersCreated
          usersSkipped := ir.stats.usersSkipped
          usersFailed := ir.stats.usersFailed
          spacesCreated := ir.stats.spacesCreated
          spacesSkipped := ir.stats.spacesSkipped
          spacesFailed := ir.stats.spacesFailed
          roomsCreated := ir.stats.roomsCreated
          roomsSkipped := ir.stats.roomsSkipped
          roomsFailed := ir.stats.roomsFailed
          roomsLinked := (linkRoomsToSpaces env.link assets.channels ir.spaceMapping
            ir.roomMapping).roomsLinked
          outputFile := env.mappingFile }) := by
  refine ⟨?_, rfl, ⟨_, rfl⟩, ?_⟩
  · intro hd hm hue huc hconf
    simp [importUserStep, hd, hm, hue, huc, hconf]
  · intro hconn hstatus hfile hss hla hsm himp
    have hg : (getStep s "export_assets").status = StepStatus.completed := hstatus
    have horch : orchestratorImportAssets env s =
      (completeStep (startStep s "import_assets" env.now) "import_assets" env.now
        env.mappingFile,
       Except.ok
        { usersCreated := ir.stats.usersCreated
          usersSkipped := ir.stats.usersSkipped
          usersFailed := ir.stats.usersFailed
          spacesCreated := ir.stats.spacesCreated
          spacesSkipped := ir.stats.spacesSkipped
          spacesFailed := ir.stats.spacesFailed
          roomsCreated := ir.stats.roomsCreated
          roomsSkipped := ir.stats.roomsSkipped
          roomsFailed := ir.stats.roomsFailed
          roomsLinked := (linkRoomsToSpaces env.link assets.channels ir.spaceMapping
            ir.roomMapping).roomsLinked
          outputFile := env.mappingFile }) := by
      simp [orchestratorImportAssets, hconn, canRunStep, hg, hfile, hss, hla, hsm, himp]
    exact ⟨by rw [horch],
      by rw [horch]; exact getStepStatus_completeStep _ _ _ _,
      by rw [horch]⟩

/-- The three-record batch of the C5 scenario: the second user's
creation fails with a definitive destination error. -/
def sampleUsersBatch : List Mattermost.User :=
  [{ id := "u1", username := "alice", firstName := "", lastName := "", deleteAt := 0 },
   { id := "u2", username := "bob", firstName := "", lastName := "", deleteAt := 0 },
   { id := "u3", username := "carol", firstName := "", lastName := "", deleteAt := 0 }]

/-- A user oracle whose creation call fails for "bob" only. -/
def failBobOracle : UserOracle :=
  { userExists := fun _ => .ok false
    createUser := fun un =>
      if un = "bob" then .error "API error (500): M_UNKNOWN - internal"
      else .ok ("@" ++ un ++ ":matrix.example") }

/-- The assets of the C5 scenario. -/
def sampleBatchAssets : Mattermost.Assets :=
  { exportedAt := 0, version := "1.0", users := sampleUsersBatch, teams := [], channels := [] }

/-- The orchestrator environment of the C5 scenario: every file
operation succeeds. -/
def sampleOrchestratorEnv : OrchestratorEnv :=
  { now := 1, connected := true, loadAssets := .ok sampleBatchAssets
    existingMappings := none, saveState := .ok (), saveMapping := .ok ()
    mappingFile := "asset-mapping-0001.json", homeserver := "matrix.example"
    oracles := { user := failBobOracle, space := sampleSpaceOracle, room := sampleRoomOracle }
    link := { addRoomToSpace := fun _ _ _ => .ok (), setRoomParent := fun _ _ _ => .ok () } }

/-- A state in which export_assets is completed with an output file. -/
def sampleStateWithExport : MigrationState :=
  { version := "1.0", createdAt := 0, updatedAt := 0
    steps := [("export_assets",
      { name := "export_assets", status := .completed, outputFile := "assets-1.json.gz" })] }

/-- The import-assets result of the C5 scenario, as `importAssets`
computes it. -/
def sampleBatchResult : ImportAssetsResult :=
  { userMapping := (importUsers "matrix.example" failBobOracle sampleUsersBatch []).mapping
    spaceMapping := []
    roomMapping := []
    stats := { usersCreated := 2, usersSkipped := 0, usersFailed := 1 } }

/-- Witness for C5: in the concrete 3-record batch whose second record
fails, the step is marked completed (not failed) and the returned
statistics are created 2, failed 1, skipped 0. -/
theorem per_item_failure_completes_step_witness :
    getStepStatus (orchestratorImportAssets sampleOrchestratorEnv sampleStateWithExport).1
      "import_assets" = .completed ∧
    (orchestratorImportAssets sampleOrchestratorEnv sampleStateWithExport).2 = .ok
      { usersCreated := 2, usersSkipped := 0, usersFailed := 1
        outputFile := "asset-mapping-0001.json" } := by
  have himp : importAssets "matrix.example" sampleOrchestratorEnv.oracles sampleBatchAssets
      none = .ok sampleBatchResult := by rfl
  have h := (per_item_failure_completes_step "matrix.example" failBobOracle []
    { mapping := [], stats := {}, createCalls := [] }
    { id := "u2", username := "bob", firstName := "", lastName := "", deleteAt := 0 } "x" []
    sampleOrchestratorEnv sampleStateWithExport sampleBatchAssets sampleBatchResult).2.2.2
    rfl rfl (by decide) rfl rfl rfl himp
  refine ⟨h.2.1, ?_⟩
  rw [h.2.2]
  exact congrArg Except.ok (by decide)

/-- C4 (as amended): create-user calls are safely repeatable — a
non-2xx response carrying errcode `M_USER_IN_USE` or an error text
containing "already exists" is returned as success with the requested
user ID, and the user pipeline then records the formatted user ID in
the mapping and counts the record skipped, not failed.  Create-room
calls have no such handling: every non-200 response — a conflict
included — is returned as an error, and the room pipeline counts it
failed without touching the mapping. -/
theorem create_already_exists_handling (uid : String) (status : Nat) (b : ApiBody)
    (hs : String) (oracle : UserOracle) (ex : GoDict) (st : PipeState)
    (u : Mattermost.User) (e : String) (ro : RoomOracle) (exC : GoDict)
    (stc : PipeState) (c : Mattermost.Channel) :
    ((status ≠ 200 ∧ status ≠ 201) →
      (b.errcode = "M_USER_IN_USE" ∨ strContains b.errmsg "already exists" = true) →
      createUserResult uid status (some b) = .ok uid) ∧
    ((status = 200 ∨ status = 201) → createUserResult uid status (some b) = .ok uid) ∧
    (u.isDeleted = false → dictGet ex u.id = none →
      oracle.userExists u.username = .ok false →
      oracle.createUser u.username = .error e →
      (strContains e "already exists" || strContains e "M_USER_IN_USE") = true →
      importUserStep hs oracle ex st u =
        { st with
            mapping := dictInsert st.mapping u.id (formatUserID hs u.username),
            stats := { st.stats with usersSkipped := st.stats.usersSkipped + 1 },
            createCalls := st.createCalls ++ [u.username] }) ∧
    (∀ (status2 : Nat) (b2 : CreateRoomBody), status2 ≠ 200 →
      createRoomResult status2 (some b2) =
        .error (apiErrorMsg status2 { errcode := b2.errcode, errmsg := b2.errmsg })) ∧
    (c.isDeleted = false → c.isDirect = false → c.isGroup = false →
      dictGet exC c.id = none →
      ro.createRoom c.displayName (if c.purpose = "" then c.header else c.purpose)
        c.isPublic = .error e →
      importChannelStep ro exC stc c =
        { stc with
            stats := { stc.stats with roomsFailed := stc.stats.roomsFailed + 1 },
            createCalls := stc.createCalls ++ [c.id] }) := by
  refine ⟨?_, ?_, ?_, ?_, ?_⟩
  · intro hns hconf
    rcases hconf with h | h <;> simp [createUserResult, hns, h]
  · intro hok
    rcases hok with h | h <;> simp [createUserResult, h]
  · intro hd hm hue huc hconf
    simp [importUserStep, hd, hm, hue, huc, hconf]
  · intro status2 b2 hns
    simp [createRoomResult, hns]
  · intro hd hdir hgrp hm huc
    simp [importChannelStep, hd, hdir, hgrp, hm, huc]

/-- Witness for C4 (amended) at concrete responses and records: a 409
M_USER_IN_USE create-user response is success with the user ID; a user
whose creation errors with an already-exists text is mapped and counted
skipped; a 400 M_ROOM_IN_USE create-room response is an error; a
channel whose creation errors is counted failed with no mapping
entry. -/
theorem create_already_exists_handling_witness :
    createUserResult "@alice:matrix.example" 409
      (some { errcode := "M_USER_IN_USE", errmsg := "User ID already taken." })
      = .ok "@alice:matrix.example" ∧
    createRoomResult 400
      (some { roomId := "", errcode := "M_ROOM_IN_USE", errmsg := "Room alias already taken" })
      = .error (apiErrorMsg 400
          { errcode := "M_ROOM_IN_USE", errmsg := "Room alias already taken" }) ∧
    importUserStep "matrix.example"
      { userExists := fun _ => .ok false
        createUser := fun _ => .error "API error (400): M_USER_IN_USE - already exists" }
      [] { mapping := [], stats := {}, createCalls := [] }
      { id := "u1", username := "alice", firstName := "", lastName := "", deleteAt := 0 } =
      { mapping := [("u1", "@alice:matrix.example")],
        stats := { usersSkipped := 1 },
        createCalls := ["alice"] } := by
  have h := create_already_exists_handling "@alice:matrix.example" 409
    { errcode := "M_USER_IN_USE", errmsg := "User ID already taken." }
    "matrix.example"
    { userExists := fun _ => .ok false
      createUser := fun _ => .error "API error (400): M_USER_IN_USE - already exists" }
    [] { mapping := [], stats := {}, createCalls := [] }
    { id := "u1", username := "alice", firstName := "", lastName := "", deleteAt := 0 }
    "API error (400): M_USER_IN_USE - already exists" sampleRoomOracle []
    { mapping := [], stats := {}, createCalls := [] }
    { id := "c1", teamId := "", displayName := "g", header := "", purpose := "",
      type := "O", deleteAt := 0 }
  refine ⟨h.1 (by decide) (.inl rfl), h.2.2.2.1 400
    { roomId := "", errcode := "M_ROOM_IN_USE", errmsg := "Room alias already taken" }
    (by decide), ?_⟩
  have h3 := h.2.2.1 rfl rfl rfl rfl (by decide)
  rw [h3]
  rfl

/-- Counterexample for C4 as frozen: the claim asserts that a
create-room call on which the destination reports "already exists"
returns success carrying the existing identifier and that the pipeline
maps it rather than counting a failure; on an `M_ROOM_IN_USE` conflict
response `CreateRoom` in fact returns a typed error, and the room
pipeline counts the record failed and leaves it out of the mapping. -/
theorem createRoom_conflict_is_error :
    (createRoomResult 400
      (some { roomId := "", errcode := "M_ROOM_IN_USE", errmsg := "Room alias already taken" })
      ).isOk = false ∧
    importChannelsAsRooms
      { createRoom := fun _ _ _ =>
          .error "API error (400): M_ROOM_IN_USE - Room alias already taken" }
      [{ id := "c1", teamId := "", displayName := "general", header := "", purpose := "",
         type := "O", deleteAt := 0 }] [] =
      { mapping := [],
        stats := { roomsFailed := 1 },
        createCalls := ["c1"] } := by
  exact ⟨rfl, rfl⟩

/-- Counterexample for C8 as frozen: a 403/M_FORBIDDEN response whose
error text is an authorization denial — not the already-a-member
message — is nonetheless returned as success by `InviteUser`, so a real
authorization failure on the invite is not reported as an error. -/
theorem inviteUser_real_forbidden_swallowed :
    inviteUserResult 403
      { errcode := "M_FORBIDDEN", errmsg := "You are not allowed to invite users to this room" }
      = .ok () ∧
    strContains "You are not allowed to invite users to this room" "already in the room"
      = false := by
  refine ⟨rfl, by decide⟩

end MatrixMigrate
